import Mathlib

/-!
Shallow embedding of the order/payment pipeline of the `tradeoff-be`
marketplace backend (NestJS + Mongoose), as implemented in
`src/modules/orders/orders.service.ts` and
`src/modules/payments/payments.service.ts`.

Modelling conventions:
* JavaScript numbers are embedded as `ℚ` (exact rational arithmetic;
  IEEE-754 rounding of intermediate products is not modelled).
* `Math.round` is embedded as `jsRound` (round half toward positive
  infinity, which is the JS semantics for finite arguments).
* MongoDB object ids and all other ids are `String`; `Date` values are
  `ℕ` ticks, and `Date#toISOString` is rendered as the tick`s decimal
  string.
* Each Mongo collection is a field of the explicit state `St`:
  orders and products are maps `String → Option _` keyed by id, order
  items and payments are lists (order items are looked up by `orderId`,
  payments by `reference` and by `id`).
* A service method that can throw is embedded as a function returning
  the (possibly updated) state together with `Except HttpError α`; an
  error result carries the state as it was when the exception was
  raised, so partial mutation before a throw stays observable.
-/

namespace Tradeoff

/-- JS `Math.round`: round half up (toward +∞), exact on rationals. -/
def jsRound (q : ℚ) : ℚ := ((⌊q + 1/2⌋ : ℤ) : ℚ)

/-- `OrderStatus` from `src/common/enums/order.enum` (file not shipped in
`src/`; values are fixed by their use as `validTransitions` keys and by the
spec §4.4). -/
inductive OrderStatus where
  | pending
  | confirmed
  | processing
  | shipped
  | delivered
  | cancelled
  | refunded
deriving DecidableEq, Repr

/-- String value of an `OrderStatus` (the enum values are lowercase words,
as for the item-status literals of `order-item.entity.ts`). -/
def OrderStatus.toStr : OrderStatus → String
  | .pending => "pending"
  | .confirmed => "confirmed"
  | .processing => "processing"
  | .shipped => "shipped"
  | .delivered => "delivered"
  | .cancelled => "cancelled"
  | .refunded => "refunded"

/-- `PaymentStatus` from `src/common/enums/order.enum` (values fixed by use
in `orders.service.ts` and `payments.service.ts`). -/
inductive PaymentStatus where
  | pending
  | completed
  | failed
  | refunded
deriving DecidableEq, Repr

/-- `PaymentMethod` from `src/common/enums/order.enum`. -/
inductive PaymentMethod where
  | card
  | bankTransfer
  | wallet
deriving DecidableEq, Repr

/-- The NestJS HTTP exception classes the two services throw. -/
inductive HttpError where
  | notFound (msg : String)
  | badRequest (msg : String)
  | forbidden (msg : String)
  | conflict (msg : String)
deriving DecidableEq, Repr

/-- Hexadecimal digit test (for the object-id format check). -/
def isHexChar (c : Char) : Bool :=
  c.isDigit || ("abcdefABCDEF".toList.contains c)

/-- `Types.ObjectId.isValid` on a string argument: a 12-character string or
a 24-character hex string. -/
def isValidObjectId (s : String) : Bool :=
  s.length == 12 || (s.length == 24 && s.toList.all isHexChar)

/-- Product document (`product.entity.ts`), restricted to the fields the
order/payment pipeline reads.  `shippingDomestic` models
`product.shipping?.domestic`, which may be absent. -/
structure Product where
  sellerId : String
  sellerFirstName : String
  sellerLastName : String
  title : String
  sellingPrice : ℚ
  quantity : ℚ
  sold : Bool
  soldAt : Option ℕ
  shippingDomestic : Option ℚ
deriving DecidableEq, Repr

/-- One entry of `CalculateOrderDto.items`: `{productId, quantity}`. -/
structure RequestedItem where
  productId : String
  quantity : ℚ
deriving DecidableEq, Repr

/-- One entry of `OrderCalculationResponseDto.items` (the `itemData`
object built at `orders.service.ts:111`). -/
structure CalcItem where
  productId : String
  productTitle : String
  unitPrice : ℚ
  quantity : ℚ
  totalPrice : ℚ
  shippingCost : ℚ
  itemServiceFee : ℚ
  itemTaxes : ℚ
  itemTotal : ℚ
  sellerId : String
  sellerName : String
  available : Bool
  availabilityMessage : Option String
deriving DecidableEq, Repr

/-- `OrderCalculationResponseDto` plus the `sellerIds : Set<string>`
accumulator of `calculateOrder` (kept as an insertion-ordered duplicate-free
list, which is what a JS `Set` of strings is). -/
structure OrderCalculation where
  items : List CalcItem
  subtotal : ℚ
  totalShippingCost : ℚ
  totalServiceFee : ℚ
  totalTaxes : ℚ
  couponDiscount : ℚ
  totalAmount : ℚ
  currency : String
  itemCount : ℚ
  sellerCount : ℕ
  unavailableItems : List String
  errors : List String
  sellerIdSet : List String
deriving DecidableEq, Repr

/-- `OrdersService.calculateServiceFee`: 3.5% service fee. -/
def calculateServiceFee (amount : ℚ) : ℚ := jsRound (amount * (35/1000))

/-- `OrdersService.calculateTaxes`: 7.5% VAT. -/
def calculateTaxes (amount : ℚ) : ℚ := jsRound (amount * (75/1000))

/-- JS `Set#add` on a set of strings represented as an insertion-ordered
duplicate-free list. -/
def setAdd (l : List String) (x : String) : List String :=
  if l.contains x then l else l ++ [x]

/-- The per-item pricing block of `calculateOrder`
(`orders.service.ts:102-109`). -/
structure ItemPricing where
  totalPrice : ℚ
  shippingCost : ℚ
  itemServiceFee : ℚ
  itemTaxes : ℚ
  itemTotal : ℚ
deriving DecidableEq, Repr

/-- Lines 102-109 of `orders.service.ts`, factored out: `totalPrice`,
`shippingCost`, `itemServiceFee`, `itemTaxes`, `itemTotal` for one item. -/
def itemPricing (unitPrice quantity domesticShipping : ℚ) : ItemPricing :=
  let totalPrice := unitPrice * quantity
  let shippingCost := domesticShipping * quantity
  let itemServiceFee := calculateServiceFee totalPrice
  let itemTaxes := calculateTaxes (totalPrice + itemServiceFee)
  { totalPrice := totalPrice
    shippingCost := shippingCost
    itemServiceFee := itemServiceFee
    itemTaxes := itemTaxes
    itemTotal := totalPrice + shippingCost + itemServiceFee + itemTaxes }

/-- The availability check of `calculateOrder` (`orders.service.ts:86-96`):
`available = !sold && quantity >= requested`, then the `else if` chain
clears it again for a self-purchase. -/
def itemAvailable (product : Product) (requested : ℚ) (buyerId : String) : Bool :=
  let available0 := !product.sold && decide (product.quantity ≥ requested)
  if product.sold then available0
  else if product.quantity < requested then available0
  else if product.sellerId == buyerId then false
  else available0

/-- The `availabilityMessage` chain of `calculateOrder`
(`orders.service.ts:89-96`). -/
def availabilityMessageOf (product : Product) (requested : ℚ)
    (buyerId : String) : Option String :=
  if product.sold then some "Product is no longer available"
  else if product.quantity < requested then
    some ("Only " ++ toString product.quantity ++ " items available")
  else if product.sellerId == buyerId then some "You cannot buy your own product"
  else none

/-- The `itemData` object of `calculateOrder` (`orders.service.ts:111-125`). -/
def calcItemOf (product : Product) (item : RequestedItem) (buyerId : String) :
    CalcItem :=
  let p := itemPricing product.sellingPrice item.quantity
    (product.shippingDomestic.getD 0)
  { productId := item.productId
    productTitle := product.title
    unitPrice := product.sellingPrice
    quantity := item.quantity
    totalPrice := p.totalPrice
    shippingCost := p.shippingCost
    itemServiceFee := p.itemServiceFee
    itemTaxes := p.itemTaxes
    itemTotal := p.itemTotal
    sellerId := product.sellerId
    sellerName := product.sellerFirstName ++ " " ++ product.sellerLastName
    available := itemAvailable product item.quantity buyerId
    availabilityMessage := availabilityMessageOf product item.quantity buyerId }

/-- One iteration of the `for (const item of calculateOrderDto.items)` loop
of `calculateOrder` (`orders.service.ts:68-138`), updating the response
accumulator. -/
def calcStep (products : String → Option Product) (buyerId : String)
    (r : OrderCalculation) (item : RequestedItem) : OrderCalculation :=
  if ¬ isValidObjectId item.productId then
    { r with errors := r.errors ++ ["Invalid product ID: " ++ item.productId] }
  else
    match products item.productId with
    | none =>
        { r with
          errors := r.errors ++ ["Product not found: " ++ item.productId]
          unavailableItems := r.unavailableItems ++ [item.productId] }
    | some product =>
        let itemData := calcItemOf product item buyerId
        let r :=
          if ¬ itemData.available then
            { r with unavailableItems := r.unavailableItems ++ [item.productId] }
          else r
        let r := { r with
          items := r.items ++ [itemData]
          sellerIdSet := setAdd r.sellerIdSet itemData.sellerId }
        if itemData.available then
          { r with
            subtotal := r.subtotal + itemData.totalPrice
            totalShippingCost := r.totalShippingCost + itemData.shippingCost
            totalServiceFee := r.totalServiceFee + itemData.itemServiceFee
            totalTaxes := r.totalTaxes + itemData.itemTaxes
            itemCount := r.itemCount + itemData.quantity }
        else r

/-- The initial `response` object of `calculateOrder`
(`orders.service.ts:50-63`), together with the empty seller-id set. -/
def emptyCalculation : OrderCalculation :=
  { items := []
    subtotal := 0
    totalShippingCost := 0
    totalServiceFee := 0
    totalTaxes := 0
    couponDiscount := 0
    totalAmount := 0
    currency := "NGN"
    itemCount := 0
    sellerCount := 0
    unavailableItems := []
    errors := []
    sellerIdSet := [] }

/-- `OrdersService.calculateOrder` (`orders.service.ts:41-157`): validate
the buyer id, run the item loop, then set `sellerCount` and
`totalAmount`. -/
def calculateOrder (products : String → Option Product)
    (items : List RequestedItem) (buyerId : String) :
    Except HttpError OrderCalculation :=
  if ¬ isValidObjectId buyerId then
    .error (.badRequest "Invalid buyer ID format")
  else
    let r := items.foldl (calcStep products buyerId) emptyCalculation
    let r := { r with sellerCount := r.sellerIdSet.length }
    .ok { r with
      totalAmount := r.subtotal + r.totalShippingCost + r.totalServiceFee
        + r.totalTaxes - r.couponDiscount }

/-- One `sellerPayouts` entry of the `Order` schema
(`order-item.entity.ts:203-227`). -/
structure SellerPayout where
  sellerId : String
  sellerName : String
  itemCount : ℚ
  revenue : ℚ
  serviceFee : ℚ
  paid : Bool
  payoutReference : Option String
  paidAt : Option ℕ
deriving DecidableEq, Repr

/-- `Order` document (`order-item.entity.ts:159-366`), restricted to the
fields the pipeline reads or writes.  The schema declares a `sellerIds`
array but **no** `sellerId` path, so there is deliberately no `sellerId`
field here; see `orderSellerIdField`. -/
structure Order where
  orderNumber : String
  buyerId : String
  status : OrderStatus
  subtotal : ℚ
  totalShippingCost : ℚ
  totalServiceFee : ℚ
  totalTaxes : ℚ
  totalAmount : ℚ
  itemCount : ℚ
  sellerCount : ℕ
  currency : String
  sellerIds : List String
  sellerPayouts : List SellerPayout
  paymentStatus : PaymentStatus
  paymentMethod : Option PaymentMethod
  paymentReference : Option String
  paymentGateway : Option String
  paidAt : Option ℕ
  trackingNumber : Option String
  carrierName : Option String
  confirmedAt : Option ℕ
  processingAt : Option ℕ
  shippedAt : Option ℕ
  deliveredAt : Option ℕ
  cancelledAt : Option ℕ
  cancellationReason : Option String
  cancelledBy : Option String
  adminNotes : Option String
  statusHistory : List String
deriving DecidableEq, Repr

/-- Reading `order.sellerId` on a hydrated `Order` document: the schema
defines no such path, so the read yields `undefined` (`none`). -/
def orderSellerIdField (_ : Order) : Option String := none

/-- `OrderItem` document (`order-item.entity.ts:7-132`), restricted to the
fields the pipeline reads or writes. -/
structure OrderItem where
  id : String
  orderId : String
  productId : String
  sellerId : String
  quantity : ℚ
  unitPrice : ℚ
  totalPrice : ℚ
  shippingCost : ℚ
  itemServiceFee : ℚ
  itemTaxes : ℚ
  itemTotal : ℚ
  sellerRevenue : ℚ
  sellerPaid : Bool
  sellerPayoutReference : Option String
  sellerPaidAt : Option ℕ
  itemStatus : String
  cancelledAt : Option ℕ
  cancellationReason : Option String
deriving DecidableEq, Repr

/-- `Payment` document (`payments/entities/payment.entity.ts`; that file is
not shipped in `src/`, so the fields are those read and written by
`payments.service.ts`).  The nested `customer`/`authorization` objects are
modelled as opaque string snapshots. -/
structure Payment where
  id : String
  reference : String
  orderId : String
  userId : String
  gateway : String
  status : PaymentStatus
  amount : ℚ
  currency : String
  method : Option PaymentMethod
  gatewayTransactionId : Option String
  gatewayReference : Option String
  gatewayResponse : Option String
  fees : Option ℚ
  netAmount : Option ℚ
  paidAt : Option ℕ
  completedAt : Option ℕ
  failureReason : Option String
  failedAt : Option ℕ
  customer : Option String
  authorization : Option String
  webhookData : Option String
  ipAddress : Option String
  riskAction : Option String
deriving DecidableEq, Repr

/-- The document store: one field per collection the pipeline touches. -/
structure St where
  orders : String → Option Order
  orderItems : List OrderItem
  products : String → Option Product
  payments : List Payment

/-- Replace the order stored under `orderId` (Mongoose `order.save()`). -/
def saveOrder (st : St) (orderId : String) (o : Order) : St :=
  { st with orders := fun oid => if oid == orderId then some o else st.orders oid }

/-- Replace the product stored under `productId`
(`productModel.findByIdAndUpdate`). -/
def saveProduct (st : St) (productId : String) (p : Product) : St :=
  { st with products := fun pid => if pid == productId then some p else st.products pid }

/-- `orderItemModel.find({ orderId })`. -/
def itemsOfOrder (st : St) (orderId : String) : List OrderItem :=
  st.orderItems.filter (fun it => it.orderId == orderId)

/-- The fresh all-zero payout `preparellerPayouts` inserts for a seller id
not yet in the map (`orders.service.ts:811-819`). -/
def zeroPayout (item : CalcItem) : SellerPayout :=
  { sellerId := item.sellerId
    sellerName := item.sellerName
    itemCount := 0
    revenue := 0
    serviceFee := 0
    paid := false
    payoutReference := none
    paidAt := none }

/-- The `payout.itemCount += ...` mutation of `preparellerPayouts`
(`orders.service.ts:822-825`), applied to the map entry whose key is the
item`s seller id. -/
def payoutAdd (item : CalcItem) (p : SellerPayout) : SellerPayout :=
  if p.sellerId == item.sellerId then
    { p with
      itemCount := p.itemCount + item.quantity
      revenue := p.revenue + (item.totalPrice - item.itemServiceFee)
      serviceFee := p.serviceFee + item.itemServiceFee }
  else p

/-- One `items.forEach` iteration of `preparellerPayouts`: insert the zero
payout when absent, then apply the `+=` mutations to the entry with the
item`s seller id. -/
def payoutStep (sellerMap : List SellerPayout) (item : CalcItem) :
    List SellerPayout :=
  let sellerMap :=
    if sellerMap.any (fun p => p.sellerId == item.sellerId) then sellerMap
    else sellerMap ++ [zeroPayout item]
  sellerMap.map (payoutAdd item)

/-- `OrdersService.preparellerPayouts` (`orders.service.ts:806-829`): group
calculated items by seller id into payout records via a JS `Map`
(insertion-ordered). -/
def preparellerPayouts (items : List CalcItem) : List SellerPayout :=
  items.foldl payoutStep []

/-- Contribution of a seller id to a rational-valued aggregate over the
items with that seller. -/
def sumContribOf (sid : String) (f : CalcItem → ℚ) (items : List CalcItem) : ℚ :=
  ((items.filter (fun i => i.sellerId == sid)).map f).sum

/-- Total money attributed by a payout list: revenue plus service fee. -/
def sumRevFee (l : List SellerPayout) : ℚ :=
  (l.map (fun p => p.revenue + p.serviceFee)).sum

/-- The fields of a payout that `processSellerPayout` must not change. -/
def payoutStats (p : SellerPayout) : String × ℚ × ℚ × ℚ :=
  (p.sellerId, p.itemCount, p.revenue, p.serviceFee)

/-- Grouping invariant of the `preparellerPayouts` fold: keys are unique,
every processed item`s seller has an entry, and each entry carries exactly
the sums over the processed items with its seller id (with `paid` still
false). -/
def PayoutInv (processed : List CalcItem) (acc : List SellerPayout) : Prop :=
  (acc.map SellerPayout.sellerId).Nodup ∧
  (∀ i ∈ processed, acc.any (fun p => p.sellerId == i.sellerId) = true) ∧
  (∀ p ∈ acc,
    p.paid = false ∧
    p.itemCount = sumContribOf p.sellerId CalcItem.quantity processed ∧
    p.revenue = sumContribOf p.sellerId
      (fun i => i.totalPrice - i.itemServiceFee) processed ∧
    p.serviceFee = sumContribOf p.sellerId CalcItem.itemServiceFee processed)

/-- `ProcessSellerPayoutDto`. -/
structure ProcessSellerPayoutDto where
  sellerId : String
  payoutReference : String
deriving DecidableEq, Repr

/-- `OrdersService.processSellerPayout` (`orders.service.ts:834-882`): mark
one seller payout of the order paid and stamp the payout reference onto the
order and this seller`s items. -/
def processSellerPayout (st : St) (now : ℕ) (orderId : String)
    (payoutDto : ProcessSellerPayoutDto) : St × Except HttpError Unit :=
  match st.orders orderId with
  | none => (st, .error (.notFound "Order not found"))
  | some order =>
    match order.sellerPayouts.findIdx? (fun p => p.sellerId == payoutDto.sellerId) with
    | none => (st, .error (.notFound "Seller not found in this order"))
    | some sellerPayoutIndex =>
      let order := { order with
        sellerPayouts := order.sellerPayouts.modify
          (fun p => { p with
            paid := true
            payoutReference := some payoutDto.payoutReference
            paidAt := some now }) sellerPayoutIndex }
      let st := { st with
        orderItems := st.orderItems.map (fun it =>
          if it.orderId == orderId && it.sellerId == payoutDto.sellerId then
            { it with
              sellerPaid := true
              sellerPayoutReference := some payoutDto.payoutReference
              sellerPaidAt := some now }
          else it) }
      (saveOrder st orderId order, .ok ())

/-- `OrdersService.canUpdateOrderStatus` (`orders.service.ts:904-931`).
The seller check reads `order.sellerId`, a path the `Order` schema does not
define, so for every non-admin caller the read of
`order.sellerId.toString()` throws a `TypeError`; the error value is the
TypeError message. -/
def canUpdateOrderStatus (order : Order) (userId : String) (userRole : String)
    (newStatus : OrderStatus) : Except String Bool := do
  if userRole == "admin" then return true
  let isBuyer := order.buyerId == userId
  let isSeller ← match orderSellerIdField order with
    | none => .error "Cannot read properties of undefined (reading toString)"
    | some sid => .ok (sid == userId)
  if isBuyer && newStatus == .cancelled then return true
  if isSeller &&
      [OrderStatus.confirmed, OrderStatus.processing, OrderStatus.shipped].contains newStatus then
    return true
  return false

/-- The `validTransitions` table of `OrdersService.validateStatusTransition`
(`orders.service.ts:937-945`). -/
def validTransitions : OrderStatus → List OrderStatus
  | .pending => [.confirmed, .cancelled]
  | .confirmed => [.processing, .cancelled]
  | .processing => [.shipped, .cancelled]
  | .shipped => [.delivered]
  | .delivered => [.refunded]
  | .cancelled => []
  | .refunded => []

/-- `OrdersService.validateStatusTransition` (`orders.service.ts:933-952`):
throw a `BadRequestException` naming both states when the transition is not
in the table. -/
def validateStatusTransition (currentStatus newStatus : OrderStatus) :
    Except HttpError Unit :=
  if ¬ (validTransitions currentStatus).contains newStatus then
    .error (.badRequest ("Invalid status transition from "
      ++ currentStatus.toStr ++ " to " ++ newStatus.toStr))
  else .ok ()

/-- One iteration of `OrdersService.restoreProductQuantity`
(`orders.service.ts:983-1001`): add the item quantity back onto the
product, clear `sold` and unset `soldAt`; a missing product is skipped. -/
def restoreItemQuantity (st : St) (item : OrderItem) : St :=
  match st.products item.productId with
  | none => st
  | some product =>
      saveProduct st item.productId
        { product with
          quantity := product.quantity + item.quantity
          sold := false
          soldAt := none }

/-- `OrdersService.restoreProductQuantity` continued: the loop over the
order`s items. -/
def restoreProductQuantity (st : St) (orderId : String) : St :=
  (itemsOfOrder st orderId).foldl restoreItemQuantity st

/-- The `$set` of the `updateMany` marking an order`s items cancelled
(`orders.service.ts:483-492`), applied when the item belongs to the
order. -/
def setItemCancelled (orderId : String) (now : ℕ) (reason : Option String)
    (it : OrderItem) : OrderItem :=
  if it.orderId == orderId then
    { it with
      itemStatus := "cancelled"
      cancelledAt := some now
      cancellationReason := reason }
  else it

/-- The `$set` of the `updateMany` marking an order`s items confirmed
(`orders.service.ts:627-630`). -/
def setItemConfirmed (orderId : String) (it : OrderItem) : OrderItem :=
  if it.orderId == orderId then { it with itemStatus := "confirmed" } else it

/-- `UpdateOrderStatusDto`. -/
structure UpdateOrderStatusDto where
  status : OrderStatus
  reason : Option String
  trackingNumber : Option String
  carrierName : Option String
  adminNotes : Option String
deriving DecidableEq, Repr

/-- `OrdersService.updateStatus` (`orders.service.ts:420-522`).  The final
`catch` rethrows `NotFoundException`/`ForbiddenException`/
`BadRequestException` unchanged and wraps anything else (in particular the
`TypeError` thrown inside `canUpdateOrderStatus`) into a
`BadRequestException` with a `Failed to update order status:` prefix. -/
def updateStatus (st : St) (now : ℕ) (orderId : String)
    (updateStatusDto : UpdateOrderStatusDto) (userId userRole : String) :
    St × Except HttpError Order :=
  if ¬ isValidObjectId orderId then
    (st, .error (.badRequest "Invalid order ID format"))
  else
    match st.orders orderId with
    | none => (st, .error (.notFound "Order not found"))
    | some order =>
      match canUpdateOrderStatus order userId userRole updateStatusDto.status with
      | .error m =>
          (st, .error (.badRequest ("Failed to update order status: " ++ m)))
      | .ok canUpdate =>
        if ¬ canUpdate then
          (st, .error (.forbidden
            "You do not have permission to update this order status"))
        else
          match validateStatusTransition order.status updateStatusDto.status with
          | .error e => (st, .error e)
          | .ok () =>
            let order := { order with status := updateStatusDto.status }
            let (order, st) :=
              match updateStatusDto.status with
              | .confirmed => ({ order with confirmedAt := some now }, st)
              | .processing => ({ order with processingAt := some now }, st)
              | .shipped =>
                  let order := { order with shippedAt := some now }
                  let order :=
                    match updateStatusDto.trackingNumber with
                    | some t => { order with trackingNumber := some t }
                    | none => order
                  let order :=
                    match updateStatusDto.carrierName with
                    | some c => { order with carrierName := some c }
                    | none => order
                  (order, st)
              | .delivered => ({ order with deliveredAt := some now }, st)
              | .cancelled =>
                  let order := { order with
                    cancelledAt := some now
                    cancellationReason := updateStatusDto.reason
                    cancelledBy := some userId }
                  let st := restoreProductQuantity st orderId
                  let st := { st with
                    orderItems := st.orderItems.map
                      (setItemCancelled orderId now updateStatusDto.reason) }
                  (order, st)
              | _ => (order, st)
            let order :=
              match updateStatusDto.adminNotes with
              | some notes =>
                  if userRole == "admin" then { order with adminNotes := some notes }
                  else order
              | none => order
            let order := { order with
              statusHistory := order.statusHistory
                ++ ["Status changed to " ++ updateStatusDto.status.toStr
                    ++ " - " ++ toString now
                    ++ (match updateStatusDto.reason with
                        | some reason => " - " ++ reason
                        | none => "")] }
            (saveOrder st orderId order, .ok order)

/-- The `paymentData` argument of `OrdersService.confirmPayment`. -/
structure PaymentData where
  reference : String
  method : PaymentMethod
  gateway : String
deriving DecidableEq, Repr

/-- `OrdersService.updateProductAfterPayment` (`orders.service.ts:954-981`):
decrement the product quantity by the purchased quantity; when the
decrement would reach zero or below, instead pin the quantity to 0 and mark
the product sold.  A missing product is a no-op. -/
def updateProductAfterPayment (st : St) (now : ℕ) (productId : String)
    (quantity : ℚ) : St :=
  match st.products productId with
  | none => st
  | some product =>
      let newQuantity := product.quantity - quantity
      if newQuantity ≤ 0 then
        saveProduct st productId
          { product with sold := true, soldAt := some now, quantity := 0 }
      else
        saveProduct st productId
          { product with quantity := product.quantity - quantity }

/-- The per-item loop at the end of `confirmPayment`
(`orders.service.ts:632-635`): decrement every item`s product. -/
def applyInventoryDecrements (st : St) (now : ℕ) (items : List OrderItem) : St :=
  items.foldl
    (fun st item => updateProductAfterPayment st now item.productId item.quantity)
    st

/-- The effect of `updateProductAfterPayment` on the stored product value:
decrement, pinning to zero and marking sold when the decrement reaches
zero or below. -/
def decrementedProduct (now : ℕ) (quantity : ℚ) :
    Option Product → Option Product
  | none => none
  | some product =>
      if product.quantity - quantity ≤ 0 then
        some { product with sold := true, soldAt := some now, quantity := 0 }
      else some { product with quantity := product.quantity - quantity }

/-- The effect of `restoreItemQuantity` on the stored product value. -/
def restoredProduct (quantity : ℚ) : Option Product → Option Product
  | none => none
  | some product =>
      some { product with
        quantity := product.quantity + quantity
        sold := false
        soldAt := none }

/-- `OrdersService.confirmPayment` (`orders.service.ts:591-642`).  The
`catch` wraps every error (including the `NotFoundException`) into a
`BadRequestException` prefixed `Failed to confirm payment:`. -/
def confirmPayment (st : St) (now : ℕ) (orderId : String)
    (paymentData : PaymentData) : St × Except HttpError Unit :=
  match st.orders orderId with
  | none => (st, .error (.badRequest "Failed to confirm payment: Order not found"))
  | some order =>
    let orderItems := itemsOfOrder st orderId
    let order := { order with
      paymentStatus := .completed
      paidAt := some now
      paymentReference := some paymentData.reference
      paymentMethod := some paymentData.method
      paymentGateway := some paymentData.gateway }
    let order :=
      if order.status == .pending then
        { order with status := .confirmed, confirmedAt := some now }
      else order
    let order := { order with
      statusHistory := order.statusHistory ++ ["Payment confirmed - " ++ toString now] }
    let st := saveOrder st orderId order
    let st := { st with
      orderItems := st.orderItems.map (setItemConfirmed orderId) }
    let st := applyInventoryDecrements st now orderItems
    (st, .ok ())

/-- The transaction data of a PayStack verification response / webhook
payload (`verificationResult.data`).  The nested `customer` and
`authorization` objects are carried as opaque string snapshots (the code
only copies them onto the payment record). -/
structure GatewayVerifyData where
  txnId : Option String
  reference : String
  status : String
  gateway_response : Option String
  channel : Option String
  fees : Option ℚ
  paid_at : ℕ
  message : Option String
  customer : Option String
  authorization : Option String
  ip_address : Option String
  risk_action : Option String
deriving DecidableEq, Repr

/-- `PayStackVerifyResponse`: envelope `{status, message, data}` returned
by `PayStackService.verifyPayment`. -/
structure GatewayVerifyResponse where
  status : Bool
  message : Option String
  data : GatewayVerifyData
deriving DecidableEq, Repr

/-- `PayStackService.koboToNaira`. -/
def koboToNaira (kobo : ℚ) : ℚ := kobo / 100

/-- `PaymentsService.mapPayStackChannelToMethod`
(`payments.service.ts:540-553`). -/
def mapPayStackChannelToMethod (channel : Option String) : PaymentMethod :=
  match channel.map String.toLower with
  | some "card" => .card
  | some "bank" => .bankTransfer
  | some "bank_transfer" => .bankTransfer
  | some "ussd" => .wallet
  | some "mobile_money" => .wallet
  | _ => .card

/-- `paymentModel.findOne({ reference })`. -/
def findPaymentByReference (st : St) (reference : String) : Option Payment :=
  st.payments.find? (fun p => p.reference == reference)

/-- `paymentModel.findById`. -/
def findPaymentById (st : St) (paymentId : String) : Option Payment :=
  st.payments.find? (fun p => p.id == paymentId)

/-- `paymentModel.findByIdAndUpdate`. -/
def updatePaymentById (st : St) (paymentId : String) (f : Payment → Payment) : St :=
  { st with payments := st.payments.map (fun p => if p.id == paymentId then f p else p) }

/-- `PaymentsService.processPaymentVerification`
(`payments.service.ts:446-502`): on a successful gateway result, mark the
payment completed with the gateway metadata and confirm the order; on an
unsuccessful result, mark the payment failed. -/
def processPaymentVerification (st : St) (now : ℕ) (payment : Payment)
    (verificationResult : GatewayVerifyResponse) : St × Except HttpError Unit :=
  let isSuccessful :=
    verificationResult.status && verificationResult.data.status == "success"
  if isSuccessful then
    let st := updatePaymentById st payment.id (fun p => { p with
      status := .completed
      gatewayTransactionId := verificationResult.data.txnId
      gatewayReference := some verificationResult.data.reference
      gatewayResponse := verificationResult.data.gateway_response
      method := some (mapPayStackChannelToMethod verificationResult.data.channel)
      fees := some (koboToNaira (verificationResult.data.fees.getD 0))
      netAmount := some (payment.amount - koboToNaira (verificationResult.data.fees.getD 0))
      paidAt := some verificationResult.data.paid_at
      completedAt := some now
      customer := verificationResult.data.customer
      authorization := verificationResult.data.authorization
      webhookData := verificationResult.data.gateway_response
      ipAddress := verificationResult.data.ip_address
      riskAction := verificationResult.data.risk_action })
    confirmPayment st now payment.orderId
      { reference := payment.reference
        method := mapPayStackChannelToMethod verificationResult.data.channel
        gateway := payment.gateway }
  else
    (updatePaymentById st payment.id (fun p => { p with
      status := .failed
      gatewayResponse := verificationResult.data.gateway_response
      failureReason := verificationResult.data.message
      failedAt := some now }), .ok ())

/-- The response data of `PaymentsService.verifyPayment`
(`PaymentVerificationResponseDto`, message included). -/
structure PaymentVerificationResponse where
  message : String
  reference : String
  status : PaymentStatus
  amount : ℚ
  currency : String
  paidAt : Option ℕ
  gatewayResponse : Option String
  orderId : String
deriving DecidableEq, Repr

/-- `PaymentsService.verifyPayment` (`payments.service.ts:173-249`).
`gw` is the PayStack verification endpoint
(`payStackService.verifyPayment`); the middle component of the result lists
the references the gateway was called with, so "without contacting the
gateway" is the statement that this list is empty. -/
def verifyPayment (gw : String → GatewayVerifyResponse) (st : St) (now : ℕ)
    (reference : String) :
    St × List String × Except HttpError PaymentVerificationResponse :=
  match findPaymentByReference st reference with
  | none => (st, [], .error (.notFound "Payment record not found"))
  | some payment =>
    if payment.status == .completed then
      (st, [], .ok {
        message := "Payment already verified"
        reference := payment.reference
        status := payment.status
        amount := payment.amount
        currency := payment.currency
        paidAt := payment.paidAt
        gatewayResponse := payment.gatewayResponse
        orderId := payment.orderId })
    else if payment.gateway == "paystack" then
      let verificationResult := gw reference
      match processPaymentVerification st now payment verificationResult with
      | (st, .error e) => (st, [reference], .error e)
      | (st, .ok ()) =>
        match findPaymentById st payment.id with
        | none =>
            (st, [reference],
             .error (.badRequest "Payment verification failed: Unknown error"))
        | some updatedPayment =>
          (st, [reference], .ok {
            message :=
              if updatedPayment.status == .completed then
                "Payment verified successfully"
              else "Payment verification failed"
            reference := updatedPayment.reference
            status := updatedPayment.status
            amount := updatedPayment.amount
            currency := updatedPayment.currency
            paidAt := updatedPayment.paidAt
            gatewayResponse := updatedPayment.gatewayResponse
            orderId := updatedPayment.orderId })
    else
      (st, [], .error (.badRequest ("Unsupported payment gateway: " ++ payment.gateway)))

/-- `PaymentsService.handleSuccessfulPayment` (`payments.service.ts:504-519`):
only a payment in `PENDING` status is processed; every error is swallowed
(the state reached at the point of the error is kept). -/
def handleSuccessfulPayment (st : St) (now : ℕ) (paymentData : GatewayVerifyData) : St :=
  match findPaymentByReference st paymentData.reference with
  | some payment =>
      if payment.status == .pending then
        (processPaymentVerification st now payment
          { status := true, message := none, data := paymentData }).1
      else st
  | none => st

/-- `PaymentsService.handleFailedPayment` (`payments.service.ts:521-538`):
only a payment in `PENDING` status is marked failed. -/
def handleFailedPayment (st : St) (now : ℕ) (paymentData : GatewayVerifyData) : St :=
  match findPaymentByReference st paymentData.reference with
  | some payment =>
      if payment.status == .pending then
        updatePaymentById st payment.id (fun p => { p with
          status := .failed
          gatewayResponse := paymentData.gateway_response
          failureReason := paymentData.message
          failedAt := some now })
      else st
  | none => st

/-- JSON values as produced by `JSON.parse` (the fragment the webhook
payloads use: strings without escapes, integers, objects; key order is the
insertion order, which `JSON.stringify` preserves). -/
inductive Json where
  | str (s : String)
  | num (n : Int)
  | obj (fields : List (String × Json))
deriving Repr

/-- The opening brace character. -/
def lbrace : Char := Char.ofNat 123

/-- The closing brace character. -/
def rbrace : Char := Char.ofNat 125

mutual
/-- `JSON.stringify` on the modelled JSON fragment: no added whitespace,
keys in insertion order. -/
def Json.stringify : Json → String
  | .str s => "\"" ++ s ++ "\""
  | .num n => toString n
  | .obj fields => "\x7b" ++ Json.stringifyFields fields ++ "\x7d"

/-- Comma-joined `"key":value` renderings of an object`s fields. -/
def Json.stringifyFields : List (String × Json) → String
  | [] => ""
  | [(k, v)] => "\"" ++ k ++ "\":" ++ Json.stringify v
  | (k, v) :: rest =>
      "\"" ++ k ++ "\":" ++ Json.stringify v ++ "," ++ Json.stringifyFields rest
end

/-- JSON whitespace skipping (space, tab, newline, carriage return). -/
def skipWs : List Char → List Char
  | c :: cs =>
      if c == ' ' || c == '\t' || c == '\n' || c == '\r' then skipWs cs else c :: cs
  | [] => []

/-- Characters of a string literal body up to the closing quote (escape
sequences are not modelled; the webhook payloads used contain none). -/
def takeStrChars : List Char → Option (List Char × List Char)
  | [] => none
  | c :: cs =>
      if c == '"' then some ([], cs)
      else (takeStrChars cs).map (fun p => (c :: p.1, p.2))

/-- Leading decimal digits of the input. -/
def takeDigits : List Char → List Char × List Char
  | [] => ([], [])
  | c :: cs =>
      if c.isDigit then
        let p := takeDigits cs
        (c :: p.1, p.2)
      else ([], c :: cs)

/-- Numeric value of a digit list. -/
def digitsVal (ds : List Char) : Int :=
  ds.foldl (fun a c => a * 10 + (c.toNat - 48 : Int)) 0

mutual
/-- Recursive-descent parser for the modelled JSON fragment
(`JSON.parse`), fuel-bounded. -/
def parseVal : Nat → List Char → Option (Json × List Char)
  | 0, _ => none
  | fuel + 1, cs =>
    match skipWs cs with
    | [] => none
    | c :: rest =>
      if c == '"' then
        (takeStrChars rest).map (fun p => (.str (String.mk p.1), p.2))
      else if c == lbrace then
        (parseFieldList fuel rest).map (fun p => (.obj p.1, p.2))
      else if c == '-' then
        match takeDigits rest with
        | ([], _) => none
        | (ds, r) => some (.num (-(digitsVal ds)), r)
      else if c.isDigit then
        match takeDigits (c :: rest) with
        | ([], _) => none
        | (ds, r) => some (.num (digitsVal ds), r)
      else none

/-- Fields of an object after its opening brace. -/
def parseFieldList : Nat → List Char → Option (List (String × Json) × List Char)
  | 0, _ => none
  | fuel + 1, cs =>
    match skipWs cs with
    | [] => none
    | c :: rest =>
      if c == rbrace then some ([], rest)
      else if c == '"' then
        (takeStrChars rest).bind (fun kp =>
          match skipWs kp.2 with
          | ':' :: r2 =>
            (parseVal fuel r2).bind (fun vp =>
              match skipWs vp.2 with
              | ',' :: r4 =>
                  (parseFieldList fuel r4).map (fun fp =>
                    ((String.mk kp.1, vp.1) :: fp.1, fp.2))
              | c2 :: r4 =>
                  if c2 == rbrace then some ([(String.mk kp.1, vp.1)], r4) else none
              | [] => none)
          | _ => none)
      else none
end

/-- `JSON.parse`: parse one value and require only whitespace to follow. -/
def jsonParse (s : String) : Option Json :=
  match parseVal (s.length + 1) s.toList with
  | some (j, rest) => if skipWs rest == [] then some j else none
  | none => none

/-- Field lookup on a JSON object (`undefined` as `none`). -/
def Json.getField (j : Json) (k : String) : Option Json :=
  match j with
  | .obj fields => (fields.find? (fun f => f.1 == k)).map (fun f => f.2)
  | _ => none

/-- String-valued field lookup. -/
def Json.getStr (j : Json) (k : String) : Option String :=
  match j.getField k with
  | some (.str s) => some s
  | _ => none

/-- Integer-valued field lookup. -/
def Json.getNum (j : Json) (k : String) : Option Int :=
  match j.getField k with
  | some (.num n) => some n
  | _ => none

/-- The duck-typed field access the webhook handlers perform on the parsed
`data` object of the payload (missing fields read as `undefined`; fields
the handlers treat as required default like JS coercions would). -/
def dtoOfJson (j : Json) : GatewayVerifyData :=
  { txnId := j.getStr "id"
    reference := (j.getStr "reference").getD ""
    status := (j.getStr "status").getD ""
    gateway_response := j.getStr "gateway_response"
    channel := j.getStr "channel"
    fees := (j.getNum "fees").map (fun n => (n : ℚ))
    paid_at := ((j.getNum "paid_at").map Int.toNat).getD 0
    message := j.getStr "message"
    customer := j.getStr "customer"
    authorization := j.getStr "authorization"
    ip_address := j.getStr "ip_address"
    risk_action := j.getStr "risk_action" }

/-- `PayStackService.verifyWebhookSignature`: compare the provided
signature with the hex HMAC-SHA512 digest of `payload` under the secret
key.  `hmac` abstracts `crypto.createHmac("sha512", secret)`; the claims
quantify over it. -/
def verifyWebhookSignature (hmac : String → String → String)
    (secretKey payload signature : String) : Bool :=
  hmac secretKey payload == signature

/-- `PaymentsService.handlePayStackWebhook` (`payments.service.ts:254-286`).
The signature is verified against `JSON.stringify(webhookData)` — the
re-serialisation of the already parsed body, not the raw request body.  The
service`s own `catch` wraps its `Invalid webhook signature` rejection with
the `Webhook processing failed:` prefix; handler errors are swallowed
inside the handlers themselves. -/
def handlePayStackWebhook (hmac : String → String → String) (secretKey : String)
    (st : St) (now : ℕ) (webhookData : Json) (signature : String) :
    St × Except HttpError Unit :=
  if ¬ verifyWebhookSignature hmac secretKey (Json.stringify webhookData) signature then
    (st, .error (.badRequest "Webhook processing failed: Invalid webhook signature"))
  else
    match webhookData.getStr "event" with
    | some "charge.success" =>
        match webhookData.getField "data" with
        | some dataJson => (handleSuccessfulPayment st now (dtoOfJson dataJson), .ok ())
        | none => (st, .ok ())
    | some "charge.failed" =>
        match webhookData.getField "data" with
        | some dataJson => (handleFailedPayment st now (dtoOfJson dataJson), .ok ())
        | none => (st, .ok ())
    | _ => (st, .ok ())

/-- `PaymentsController.paystackWebhook` (the webhook route): require the
`x-paystack-signature` header and a body, `JSON.parse` the raw body, then
run `handlePayStackWebhook`.  The controller`s `catch` wraps every error —
including the service`s already prefixed rejection — with its own
`Webhook processing failed:` prefix. -/
def paystackWebhook (hmac : String → String → String) (secretKey : String)
    (st : St) (now : ℕ) (rawBody : String) (signature : Option String) :
    St × Except HttpError String :=
  match signature with
  | none => (st, .error (.badRequest "Webhook processing failed: Missing PayStack signature"))
  | some sig =>
    if rawBody == "" then
      (st, .error (.badRequest "Webhook processing failed: Missing request body"))
    else
      match jsonParse rawBody with
      | none =>
          (st, .error (.badRequest "Webhook processing failed: Unexpected token in JSON"))
      | some webhookData =>
        match handlePayStackWebhook hmac secretKey st now webhookData sig with
        | (st, .ok ()) => (st, .ok "Webhook processed successfully")
        | (st, .error (.badRequest m)) =>
            (st, .error (.badRequest ("Webhook processing failed: " ++ m)))
        | (st, .error e) => (st, .error e)

/-! ### Concrete example data (used by counterexamples and witnesses) -/

/-- The empty document store. -/
def emptySt : St :=
  { orders := fun _ => none
    orderItems := []
    products := fun _ => none
    payments := [] }

/-- A baseline order used to build concrete test states. -/
def baseOrder : Order :=
  { orderNumber := "ORD17000000001"
    buyerId := "buyerbuyer01"
    status := .pending
    subtotal := 1000
    totalShippingCost := 0
    totalServiceFee := 35
    totalTaxes := 78
    totalAmount := 1113
    itemCount := 1
    sellerCount := 1
    currency := "NGN"
    sellerIds := ["sellerseller"]
    sellerPayouts := []
    paymentStatus := .pending
    paymentMethod := none
    paymentReference := none
    paymentGateway := none
    paidAt := none
    trackingNumber := none
    carrierName := none
    confirmedAt := none
    processingAt := none
    shippedAt := none
    deliveredAt := none
    cancelledAt := none
    cancellationReason := none
    cancelledBy := none
    adminNotes := none
    statusHistory := [] }

/-- A baseline product (1000 NGN, 5 in stock, not sold). -/
def baseProduct : Product :=
  { sellerId := "sellerseller"
    sellerFirstName := "Ada"
    sellerLastName := "Obi"
    title := "Running shoe"
    sellingPrice := 1000
    quantity := 5
    sold := false
    soldAt := none
    shippingDomestic := some 0 }

/-- A baseline order item (quantity 2 of `baseProduct`). -/
def baseItem : OrderItem :=
  { id := "itemitemitem"
    orderId := "orderorder01"
    productId := "productprod1"
    sellerId := "sellerseller"
    quantity := 2
    unitPrice := 1000
    totalPrice := 2000
    shippingCost := 0
    itemServiceFee := 70
    itemTaxes := 155
    itemTotal := 2225
    sellerRevenue := 1930
    sellerPaid := false
    sellerPayoutReference := none
    sellerPaidAt := none
    itemStatus := "pending"
    cancelledAt := none
    cancellationReason := none }

/-- Product map for the C1 counterexample: one product that is already
sold (hence unavailable). -/
def exProductsC1 : String → Option Product := fun pid =>
  if pid == "productprod1" then some { baseProduct with sold := true, soldAt := some 1 }
  else none

/-- The C1 counterexample calculation: one request for the sold product. -/
def exCalcC1 : Except HttpError OrderCalculation :=
  calculateOrder exProductsC1 [{ productId := "productprod1", quantity := 1 }]
    "buyerbuyer01"

/-- State for the C3 witness: one order already CANCELLED. -/
def exStC3 : St :=
  { emptySt with
    orders := fun oid =>
      if oid == "orderorder03" then some { baseOrder with status := .cancelled }
      else none }

/-- DTO for the C3 witness: attempt CANCELLED → CONFIRMED. -/
def exDtoC3 : UpdateOrderStatusDto :=
  { status := .confirmed, reason := none, trackingNumber := none
    carrierName := none, adminNotes := none }

/-- Order for the C7 bug demonstration (buyer `buyerbuyer01`, one seller). -/
def exOrderC7 : Order := baseOrder

/-- State for the C7 bug demonstration. -/
def exStC7 : St :=
  { emptySt with
    orders := fun oid => if oid == "orderorder07" then some exOrderC7 else none }

/-- DTO for the C7 bug demonstration: the buyer tries to cancel. -/
def exDtoC7 : UpdateOrderStatusDto :=
  { status := .cancelled, reason := some "changed my mind", trackingNumber := none
    carrierName := none, adminNotes := none }

/-- Raw webhook body for C8, exactly as PayStack would send it but with
whitespace: re-serialising its parse drops the spaces. -/
def exRawBody : String := "\x7b \"event\": \"ping\" \x7d"

/-- The canonical re-serialisation of `exRawBody`s parse. -/
def exRestringified : String := "\x7b\"event\":\"ping\"\x7d"

/-- Stand-in MAC used by the C8 witness: any function distinguishing the
two messages exhibits the bug (a real HMAC-SHA512 does). -/
def hmacModel (secretKey pay : String) : String := secretKey ++ "|" ++ pay

/-- Sum of a rational-valued field over a list of calculated items. -/
def sumBy (l : List CalcItem) (f : CalcItem → ℚ) : ℚ := (l.map f).sum

/-- Loop invariant of `calculateOrder`s item loop: the running totals are
the sums over the available items collected so far, every unavailable
collected item is listed, and the seller-id set is a duplicate-free list
holding exactly the seller ids of the collected items. -/
def CalcInv (r : OrderCalculation) : Prop :=
  r.subtotal = sumBy (r.items.filter (fun i => i.available)) CalcItem.totalPrice ∧
  r.totalShippingCost
    = sumBy (r.items.filter (fun i => i.available)) CalcItem.shippingCost ∧
  r.totalServiceFee
    = sumBy (r.items.filter (fun i => i.available)) CalcItem.itemServiceFee ∧
  r.totalTaxes = sumBy (r.items.filter (fun i => i.available)) CalcItem.itemTaxes ∧
  r.itemCount = sumBy (r.items.filter (fun i => i.available)) CalcItem.quantity ∧
  (∀ i ∈ r.items, i.available = false → i.productId ∈ r.unavailableItems) ∧
  r.sellerIdSet.Nodup ∧
  r.sellerIdSet.toFinset = (r.items.map CalcItem.sellerId).toFinset

/-- Product map with one purchasable product (`baseProduct`). -/
def exProductsOK : String → Option Product := fun pid =>
  if pid == "productprod1" then some baseProduct else none

/-- One requested unit of the purchasable product. -/
def exReqsOK : List RequestedItem := [{ productId := "productprod1", quantity := 1 }]

/-- The calculated line item for `exReqsOK` over `exProductsOK`. -/
def exItemOK : CalcItem :=
  { productId := "productprod1"
    productTitle := "Running shoe"
    unitPrice := 1000
    quantity := 1
    totalPrice := 1000
    shippingCost := 0
    itemServiceFee := 35
    itemTaxes := 78
    itemTotal := 1113
    sellerId := "sellerseller"
    sellerName := "Ada Obi"
    available := true
    availabilityMessage := none }

/-- The full calculation result for `exReqsOK` over `exProductsOK`. -/
def exCalcOKResult : OrderCalculation :=
  { items := [exItemOK]
    subtotal := 1000
    totalShippingCost := 0
    totalServiceFee := 35
    totalTaxes := 78
    couponDiscount := 0
    totalAmount := 1113
    currency := "NGN"
    itemCount := 1
    sellerCount := 1
    unavailableItems := []
    errors := []
    sellerIdSet := ["sellerseller"] }

/-- The unique seller payout of `exCalcOKResult`s items. -/
def exPayoutOK : SellerPayout :=
  { sellerId := "sellerseller"
    sellerName := "Ada Obi"
    itemCount := 1
    revenue := 965
    serviceFee := 35
    paid := false
    payoutReference := none
    paidAt := none }

/-- Order carrying that payout, for the payout-processing witness. -/
def exOrderC6 : Order := { baseOrder with sellerPayouts := [exPayoutOK] }

/-- State for the payout-processing witness. -/
def exStC6 : St :=
  { emptySt with
    orders := fun oid => if oid == "orderorder06" then some exOrderC6 else none }

/-- Payout-processing request for the witness. -/
def exDtoC6 : ProcessSellerPayoutDto :=
  { sellerId := "sellerseller", payoutReference := "PAYREF123" }

/-- State for the payment-confirmation and cancellation witnesses: one
pending order with one item of quantity 2 against a product with 5 in
stock. -/
def exStC4 : St :=
  { orders := fun oid => if oid == "orderorder01" then some baseOrder else none
    orderItems := [baseItem]
    products := fun pid => if pid == "productprod1" then some baseProduct else none
    payments := [] }

/-- Payment data used by the confirmation witnesses. -/
def exPaymentData : PaymentData :=
  { reference := "PAYREF456", method := .card, gateway := "paystack" }

/-- A completed payment record (for the verification short-circuit
witness). -/
def exPaymentC9 : Payment :=
  { id := "paypaypay009"
    reference := "REF9"
    orderId := "orderorder01"
    userId := "buyerbuyer01"
    gateway := "paystack"
    status := .completed
    amount := 1113
    currency := "NGN"
    method := some .card
    gatewayTransactionId := some "12345"
    gatewayReference := some "REF9"
    gatewayResponse := some "Successful"
    fees := some 10
    netAmount := some 1103
    paidAt := some 10
    completedAt := some 10
    failureReason := none
    failedAt := none
    customer := none
    authorization := none
    webhookData := none
    ipAddress := none
    riskAction := none }

/-- State holding the completed payment. -/
def exStC9 : St := { emptySt with payments := [exPaymentC9] }

/-- A failed payment record against the concrete pending order (for the
re-verification witness). -/
def exPaymentC10 : Payment :=
  { exPaymentC9 with
    id := "paypaypay010"
    reference := "REF10"
    status := .failed
    failureReason := some "Payment expired"
    failedAt := some 8
    paidAt := none
    completedAt := none }

/-- State holding the failed payment and the pending order with stock. -/
def exStC10 : St := { exStC4 with payments := [exPaymentC10] }

/-- Successful gateway verification data for reference `REF10`. -/
def exGwData : GatewayVerifyData :=
  { txnId := some "67890"
    reference := "REF10"
    status := "success"
    gateway_response := some "Successful"
    channel := some "card"
    fees := some 100
    paid_at := 12
    message := none
    customer := some "buyer@example.com"
    authorization := some "AUTH_x"
    ip_address := some "127.0.0.1"
    risk_action := some "default" }

/-- Gateway stub returning a successful verification for every
reference. -/
def exGw : String → GatewayVerifyResponse :=
  fun _ => { status := true, message := some "Verification successful", data := exGwData }

/-! ### Theorems -/

/-- `setAdd` keeps the seller-id list duplicate-free. -/
theorem setAdd_nodup {l : List String} {x : String} (h : l.Nodup) :
    (setAdd l x).Nodup := by
  unfold setAdd
  split
  · exact h
  · next hc =>
    have hx : x ∉ l := by simpa using hc
    exact List.Nodup.append h (List.nodup_singleton x)
      (fun a ha hax => hx (by simp at hax; rwa [hax] at ha))

/-- `setAdd` inserts the element into the underlying finite set. -/
theorem setAdd_toFinset (l : List String) (x : String) :
    (setAdd l x).toFinset = insert x l.toFinset := by
  unfold setAdd
  split
  · next hc =>
    have hx : x ∈ l := by simpa using hc
    ext a
    simp only [List.mem_toFinset, Finset.mem_insert]
    constructor
    · exact Or.inr
    · rintro (rfl | ha)
      · exact hx
      · exact ha
  · ext a
    simp [or_comm]

/-- `sumBy` distributes over list append. -/
theorem sumBy_append (l₁ l₂ : List CalcItem) (f : CalcItem → ℚ) :
    sumBy (l₁ ++ l₂) f = sumBy l₁ f + sumBy l₂ f := by
  simp [sumBy]

/-- Appending an available item and adding it into every total preserves
the invariant. -/
theorem calcInv_append_available (r : OrderCalculation) (d : CalcItem)
    (h : CalcInv r) (hA : d.available = true) :
    CalcInv { r with
      items := r.items ++ [d]
      sellerIdSet := setAdd r.sellerIdSet d.sellerId
      subtotal := r.subtotal + d.totalPrice
      totalShippingCost := r.totalShippingCost + d.shippingCost
      totalServiceFee := r.totalServiceFee + d.itemServiceFee
      totalTaxes := r.totalTaxes + d.itemTaxes
      itemCount := r.itemCount + d.quantity } := by
  obtain ⟨h1, h2, h3, h4, h5, h6, h7, h8⟩ := h
  have hfil : (r.items ++ [d]).filter (fun i => i.available)
      = r.items.filter (fun i => i.available) ++ [d] := by
    simp [List.filter_append, hA]
  refine ⟨?_, ?_, ?_, ?_, ?_, ?_, setAdd_nodup h7, ?_⟩
  · simp only [hfil, sumBy_append, h1]; simp [sumBy]
  · simp only [hfil, sumBy_append, h2]; simp [sumBy]
  · simp only [hfil, sumBy_append, h3]; simp [sumBy]
  · simp only [hfil, sumBy_append, h4]; simp [sumBy]
  · simp only [hfil, sumBy_append, h5]; simp [sumBy]
  · intro i hi hfalse
    rcases List.mem_append.mp hi with hi | hi
    · exact h6 i hi hfalse
    · simp at hi
      rw [hi, hA] at hfalse
      cases hfalse
  · simp only [setAdd_toFinset, h8, List.map_append, List.toFinset_append]
    simp
    rw [Finset.insert_eq]
    exact Finset.union_comm _ _

/-- Appending an unavailable item and listing its product id preserves the
invariant (no total changes). -/
theorem calcInv_append_unavailable (r : OrderCalculation) (d : CalcItem)
    (pid : String) (h : CalcInv r) (hA : d.available = false)
    (hpid : d.productId = pid) :
    CalcInv { r with
      items := r.items ++ [d]
      sellerIdSet := setAdd r.sellerIdSet d.sellerId
      unavailableItems := r.unavailableItems ++ [pid] } := by
  obtain ⟨h1, h2, h3, h4, h5, h6, h7, h8⟩ := h
  have hfil : (r.items ++ [d]).filter (fun i => i.available)
      = r.items.filter (fun i => i.available) := by
    simp [List.filter_append, hA]
  refine ⟨?_, ?_, ?_, ?_, ?_, ?_, setAdd_nodup h7, ?_⟩
  · simp only [hfil]; exact h1
  · simp only [hfil]; exact h2
  · simp only [hfil]; exact h3
  · simp only [hfil]; exact h4
  · simp only [hfil]; exact h5
  · intro i hi hfalse
    rcases List.mem_append.mp hi with hi | hi
    · exact List.mem_append_left _ (h6 i hi hfalse)
    · simp at hi
      rw [hi, hpid]
      exact List.mem_append_right _ (by simp)
  · simp only [setAdd_toFinset, h8, List.map_append, List.toFinset_append]
    simp
    rw [Finset.insert_eq]
    exact Finset.union_comm _ _

/-- One iteration of the `calculateOrder` loop preserves the loop
invariant. -/
theorem calcStep_inv (products : String → Option Product) (buyerId : String)
    (r : OrderCalculation) (item : RequestedItem) (h : CalcInv r) :
    CalcInv (calcStep products buyerId r item) := by
  obtain ⟨h1, h2, h3, h4, h5, h6, h7, h8⟩ := h
  unfold calcStep
  split
  · exact ⟨h1, h2, h3, h4, h5, h6, h7, h8⟩
  · split
    · refine ⟨h1, h2, h3, h4, h5, ?_, h7, h8⟩
      intro i hi hav
      exact List.mem_append_left _ (h6 i hi hav)
    · next product heq =>
      cases hA : (calcItemOf product item buyerId).available
      · simp only [hA, Bool.false_eq_true, not_false_iff, if_true, if_false, ite_true,
          ite_false, Bool.not_eq_true]
        exact calcInv_append_unavailable _ _ _
          ⟨h1, h2, h3, h4, h5, h6, h7, h8⟩ hA rfl
      · simp only [hA, not_true, if_true, if_false, ite_true, ite_false]
        exact calcInv_append_available _ _ ⟨h1, h2, h3, h4, h5, h6, h7, h8⟩ hA

/-- The whole loop preserves the invariant. -/
theorem calcFold_inv (products : String → Option Product) (buyerId : String)
    (reqs : List RequestedItem) (r : OrderCalculation) (h : CalcInv r) :
    CalcInv (reqs.foldl (calcStep products buyerId) r) := by
  induction reqs generalizing r with
  | nil => exact h
  | cons hd tl ih => exact ih _ (calcStep_inv products buyerId r hd h)

/-- The initial response satisfies the invariant. -/
theorem calcInv_empty : CalcInv emptyCalculation := by
  refine ⟨rfl, rfl, rfl, rfl, rfl, ?_, ?_, rfl⟩
  · intro i hi
    simp [emptyCalculation] at hi
  · simp [emptyCalculation]

/-- Sanity check against the end-to-end numbers of spec §8.6:
25000 × 2 with 1250 domestic shipping. -/
theorem itemPricing_spec_example :
    itemPricing 25000 2 1250 =
      { totalPrice := 50000, shippingCost := 2500, itemServiceFee := 1750
        itemTaxes := 3881, itemTotal := 58131 } := by
  unfold itemPricing calculateServiceFee calculateTaxes jsRound
  norm_num [ItemPricing.mk.injEq]

/-- C2: for all natural unit price, quantity and per-unit domestic
shipping, the per-item breakdown is the stated pure function:
`totalPrice = unitPrice * quantity`, `shippingCost = domesticShipping *
quantity`, `itemServiceFee = round(totalPrice * 0.035)`,
`itemTaxes = round((totalPrice + itemServiceFee) * 0.075)`, and
`itemTotal` is the sum of the other four fields. -/
theorem C2_item_pricing_formulas (unitPrice quantity domesticShipping : ℕ) :
    (itemPricing unitPrice quantity domesticShipping).totalPrice
        = (unitPrice : ℚ) * quantity ∧
    (itemPricing unitPrice quantity domesticShipping).shippingCost
        = (domesticShipping : ℚ) * quantity ∧
    (itemPricing unitPrice quantity domesticShipping).itemServiceFee
        = jsRound ((itemPricing unitPrice quantity domesticShipping).totalPrice
            * (35/1000)) ∧
    (itemPricing unitPrice quantity domesticShipping).itemTaxes
        = jsRound (((itemPricing unitPrice quantity domesticShipping).totalPrice
            + (itemPricing unitPrice quantity domesticShipping).itemServiceFee)
            * (75/1000)) ∧
    (itemPricing unitPrice quantity domesticShipping).itemTotal
        = (itemPricing unitPrice quantity domesticShipping).totalPrice
          + (itemPricing unitPrice quantity domesticShipping).shippingCost
          + (itemPricing unitPrice quantity domesticShipping).itemServiceFee
          + (itemPricing unitPrice quantity domesticShipping).itemTaxes :=
  ⟨rfl, rfl, rfl, rfl, rfl⟩

/-- C3: an attempt to perform a status transition that is not in the §4.4
table, by a caller the authorization check admits, fails with the
Validation (`BadRequestException`) error naming the current and target
states, and leaves the whole document store — the order, its items and the
products — unchanged. -/
theorem C3_invalid_transition_rejected (st : St) (now : ℕ) (orderId : String)
    (updateStatusDto : UpdateOrderStatusDto) (userId userRole : String)
    (order : Order)
    (hvalid : isValidObjectId orderId = true)
    (horder : st.orders orderId = some order)
    (hperm : canUpdateOrderStatus order userId userRole updateStatusDto.status
      = .ok true)
    (htrans : (validTransitions order.status).contains updateStatusDto.status
      = false) :
    updateStatus st now orderId updateStatusDto userId userRole =
      (st, .error (.badRequest ("Invalid status transition from "
        ++ order.status.toStr ++ " to " ++ updateStatusDto.status.toStr))) := by
  have hmem : updateStatusDto.status ∉ validTransitions order.status := by
    simpa using htrans
  have hv : validateStatusTransition order.status updateStatusDto.status =
      .error (.badRequest ("Invalid status transition from "
        ++ order.status.toStr ++ " to " ++ updateStatusDto.status.toStr)) := by
    unfold validateStatusTransition
    simp [hmem]
  unfold updateStatus
  simp [hvalid, horder, hperm, hv]

/-- C3 witness: on a CANCELLED order, an admin attempt to move to
CONFIRMED is rejected with the naming Validation error and no state
change. -/
theorem C3_witness :
    isValidObjectId "orderorder03" = true ∧
    exStC3.orders "orderorder03" = some { baseOrder with status := .cancelled } ∧
    canUpdateOrderStatus { baseOrder with status := .cancelled } "adminadmin01"
      "admin" exDtoC3.status = .ok true ∧
    (validTransitions ({ baseOrder with status := .cancelled } : Order).status).contains
      exDtoC3.status = false ∧
    updateStatus exStC3 7 "orderorder03" exDtoC3 "adminadmin01" "admin" =
      (exStC3, .error (.badRequest ("Invalid status transition from "
        ++ ({ baseOrder with status := .cancelled } : Order).status.toStr
        ++ " to " ++ exDtoC3.status.toStr))) :=
  ⟨by decide, rfl, rfl, by decide,
    C3_invalid_transition_rejected exStC3 7 "orderorder03" exDtoC3 "adminadmin01"
      "admin" { baseOrder with status := .cancelled } (by decide) rfl rfl (by decide)⟩

/-- C7: `canUpdateOrderStatus` reads `order.sellerId`, a path the Order
schema does not define, so every non-admin caller — including the buyer
performing the one transition the rule allows them, CANCELLED — crashes
with a TypeError that `updateStatus` wraps into a Validation
(`BadRequestException`) error instead of either succeeding or producing
the distinct Forbidden error. -/
theorem C7_seller_id_read_crashes :
    canUpdateOrderStatus exOrderC7 "buyerbuyer01" "user" OrderStatus.cancelled
      = .error "Cannot read properties of undefined (reading toString)" ∧
    canUpdateOrderStatus exOrderC7 "sellerseller" "seller" OrderStatus.confirmed
      = .error "Cannot read properties of undefined (reading toString)" ∧
    updateStatus exStC7 3 "orderorder07" exDtoC7 "buyerbuyer01" "user" =
      (exStC7, .error (.badRequest ("Failed to update order status: "
        ++ "Cannot read properties of undefined (reading toString)"))) :=
  ⟨rfl, rfl, rfl⟩

/-- C8: the webhook pipeline does not verify the signature against the raw
request body: it verifies it against `JSON.stringify` of the already
parsed body.  For the raw body `\x7b "event": "ping" \x7d` (note the
whitespace), whose re-serialisation is `\x7b"event":"ping"\x7d`, any MAC
that distinguishes the two messages — as HMAC-SHA512 does — makes the
handler reject the request even though its signature header is exactly
the MAC of the raw body, i.e. correctly signed per the spec. -/
theorem C8_signature_over_restringified_body (hmac : String → String → String)
    (secretKey : String) (st : St) (now : ℕ)
    (hne : hmac secretKey exRawBody ≠ hmac secretKey exRestringified) :
    jsonParse exRawBody = some (.obj [("event", .str "ping")]) ∧
    Json.stringify (.obj [("event", .str "ping")]) = exRestringified ∧
    paystackWebhook hmac secretKey st now exRawBody
        (some (hmac secretKey exRawBody)) =
      (st, .error (.badRequest ("Webhook processing failed: "
        ++ "Webhook processing failed: Invalid webhook signature"))) := by
  refine ⟨rfl, rfl, ?_⟩
  unfold paystackWebhook
  have hparse : jsonParse exRawBody = some (.obj [("event", .str "ping")]) := rfl
  have hstr : Json.stringify (.obj [("event", .str "ping")]) = exRestringified := rfl
  have hbody : (exRawBody == "") = false := by decide
  rw [hbody]
  simp only [Bool.false_eq_true, if_false, hparse]
  unfold handlePayStackWebhook verifyWebhookSignature
  rw [hstr]
  have hsig : (hmac secretKey exRestringified == hmac secretKey exRawBody) = false := by
    simp [BEq.beq]
    exact fun h => hne h.symm
  simp [hsig]

/-- C8 witness: the stand-in MAC `hmacModel` distinguishes the raw body
from its re-serialisation, and the correctly signed request is rejected
with no state change. -/
theorem C8_witness :
    hmacModel "sk" exRawBody ≠ hmacModel "sk" exRestringified ∧
    paystackWebhook hmacModel "sk" emptySt 0 exRawBody
        (some (hmacModel "sk" exRawBody)) =
      (emptySt, .error (.badRequest ("Webhook processing failed: "
        ++ "Webhook processing failed: Invalid webhook signature"))) :=
  ⟨by decide,
    (C8_signature_over_restringified_body hmacModel "sk" emptySt 0 (by decide)).2.2⟩

/-- Evaluation of the one-available-item calculation (shared by several
witnesses). -/
theorem exCalcOK_eval :
    calculateOrder exProductsOK exReqsOK "buyerbuyer01" = .ok exCalcOKResult := by
  have hv : isValidObjectId "buyerbuyer01" = true := by decide
  have hv2 : isValidObjectId "productprod1" = true := by decide
  unfold calculateOrder exReqsOK
  rw [hv]
  simp only [List.foldl_cons, List.foldl_nil]
  unfold calcStep
  rw [hv2]
  simp only [not_true, if_false, ite_false, ite_true]
  unfold exProductsOK
  have hne : ¬ (("sellerseller" : String) = "buyerbuyer01") := by decide
  norm_num [calcItemOf, itemAvailable, availabilityMessageOf, itemPricing,
    calculateServiceFee, calculateTaxes, jsRound, setAdd, emptyCalculation,
    baseProduct, exCalcOKResult, exItemOK, hne]
  decide

/-- C1 (amended): the monetary totals and the item count of a calculation
are the sums over its available items only, every unavailable item is
listed in `unavailableItems`, `totalAmount` satisfies the stated formula,
and `sellerCount` counts the distinct seller ids across **all** collected
items (available or not). -/
theorem C1_totals_over_available_items (products : String → Option Product)
    (reqs : List RequestedItem) (buyerId : String) (r : OrderCalculation)
    (h : calculateOrder products reqs buyerId = .ok r) :
    r.subtotal = sumBy (r.items.filter (fun i => i.available)) CalcItem.totalPrice ∧
    r.totalShippingCost
      = sumBy (r.items.filter (fun i => i.available)) CalcItem.shippingCost ∧
    r.totalServiceFee
      = sumBy (r.items.filter (fun i => i.available)) CalcItem.itemServiceFee ∧
    r.totalTaxes = sumBy (r.items.filter (fun i => i.available)) CalcItem.itemTaxes ∧
    r.itemCount = sumBy (r.items.filter (fun i => i.available)) CalcItem.quantity ∧
    (∀ i ∈ r.items, i.available = false → i.productId ∈ r.unavailableItems) ∧
    r.sellerCount = ((r.items.map CalcItem.sellerId).toFinset).card ∧
    r.totalAmount = r.subtotal + r.totalShippingCost + r.totalServiceFee
      + r.totalTaxes - r.couponDiscount := by
  unfold calculateOrder at h
  split at h
  · cases h
  · have hinv := calcFold_inv products buyerId reqs emptyCalculation calcInv_empty
    obtain ⟨h1, h2, h3, h4, h5, h6, h7, h8⟩ := hinv
    rw [Except.ok.injEq] at h
    subst h
    refine ⟨h1, h2, h3, h4, h5, h6, ?_, rfl⟩
    simpa [h8] using (List.toFinset_card_of_nodup h7).symm

/-- C1 counterexample (to the claim as stated): a single request for an
already sold product yields `sellerCount = 1` although the set of seller
ids among *available* items is empty — unavailable items do contribute to
the seller count. -/
theorem C1_counterexample :
    exCalcC1.map OrderCalculation.sellerCount = .ok 1 ∧
    exCalcC1.map (fun r =>
      (((r.items.filter (fun i => i.available)).map CalcItem.sellerId).toFinset).card)
      = .ok 0 :=
  ⟨rfl, rfl⟩

/-- C1 witness: the amended theorem applied to the concrete
one-available-item calculation. -/
theorem C1_witness :
    calculateOrder exProductsOK exReqsOK "buyerbuyer01" = .ok exCalcOKResult ∧
    (exCalcOKResult.subtotal
        = sumBy (exCalcOKResult.items.filter (fun i => i.available))
            CalcItem.totalPrice ∧
      exCalcOKResult.totalShippingCost
        = sumBy (exCalcOKResult.items.filter (fun i => i.available))
            CalcItem.shippingCost ∧
      exCalcOKResult.totalServiceFee
        = sumBy (exCalcOKResult.items.filter (fun i => i.available))
            CalcItem.itemServiceFee ∧
      exCalcOKResult.totalTaxes
        = sumBy (exCalcOKResult.items.filter (fun i => i.available))
            CalcItem.itemTaxes ∧
      exCalcOKResult.itemCount
        = sumBy (exCalcOKResult.items.filter (fun i => i.available))
            CalcItem.quantity ∧
      (∀ i ∈ exCalcOKResult.items, i.available = false
        → i.productId ∈ exCalcOKResult.unavailableItems) ∧
      exCalcOKResult.sellerCount
        = ((exCalcOKResult.items.map CalcItem.sellerId).toFinset).card ∧
      exCalcOKResult.totalAmount = exCalcOKResult.subtotal
        + exCalcOKResult.totalShippingCost + exCalcOKResult.totalServiceFee
        + exCalcOKResult.totalTaxes - exCalcOKResult.couponDiscount) :=
  ⟨exCalcOK_eval,
    C1_totals_over_available_items exProductsOK exReqsOK "buyerbuyer01"
      exCalcOKResult exCalcOK_eval⟩

/-- `payoutAdd` never changes the seller id of an entry. -/
theorem payoutAdd_sellerId (item : CalcItem) (p : SellerPayout) :
    (payoutAdd item p).sellerId = p.sellerId := by
  unfold payoutAdd
  split <;> rfl

/-- The key list of the map is unchanged by applying `payoutAdd`. -/
theorem keys_map_payoutAdd (item : CalcItem) (l : List SellerPayout) :
    (l.map (payoutAdd item)).map SellerPayout.sellerId
      = l.map SellerPayout.sellerId := by
  rw [List.map_map]
  exact List.map_congr_left (fun p _ => payoutAdd_sellerId item p)

/-- Key search is unchanged by applying `payoutAdd`. -/
theorem any_map_payoutAdd (item : CalcItem) (l : List SellerPayout) (x : String) :
    (l.map (payoutAdd item)).any (fun p => p.sellerId == x)
      = l.any (fun p => p.sellerId == x) := by
  rw [List.any_map]
  have h : ((fun p => p.sellerId == x) ∘ payoutAdd item)
      = (fun (p : SellerPayout) => p.sellerId == x) :=
    funext fun p => by simp [Function.comp, payoutAdd_sellerId]
  rw [h]

/-- A seller absent from a run of items contributes zero. -/
theorem sumContribOf_eq_zero (sid : String) (f : CalcItem → ℚ)
    (items : List CalcItem) (h : ∀ i ∈ items, (i.sellerId == sid) = false) :
    sumContribOf sid f items = 0 := by
  unfold sumContribOf
  rw [List.filter_eq_nil_iff.mpr (fun i hi => by simp [h i hi])]
  rfl

/-- Appending one item changes a seller aggregate by that item`s
contribution when the seller matches. -/
theorem sumContribOf_append (sid : String) (f : CalcItem → ℚ)
    (l : List CalcItem) (d : CalcItem) :
    sumContribOf sid f (l ++ [d])
      = sumContribOf sid f l + (if d.sellerId == sid then f d else 0) := by
  by_cases h : (d.sellerId == sid) = true
  · simp [sumContribOf, List.filter_append, h]
  · simp only [Bool.not_eq_true] at h
    simp [sumContribOf, List.filter_append, h]

/-- Applying the `+=` mutation step to a map that covers the item`s seller
preserves the grouping invariant. -/
theorem payoutMap_inv (processed : List CalcItem) (acc : List SellerPayout)
    (item : CalcItem) (h : PayoutInv processed acc)
    (hitem : acc.any (fun p => p.sellerId == item.sellerId) = true) :
    PayoutInv (processed ++ [item]) (acc.map (payoutAdd item)) := by
  obtain ⟨hkeys, hcov, hstats⟩ := h
  refine ⟨?_, ?_, ?_⟩
  · rw [keys_map_payoutAdd]
    exact hkeys
  · intro i hi
    rw [any_map_payoutAdd]
    rcases List.mem_append.mp hi with hi | hi
    · exact hcov i hi
    · simp at hi
      rw [hi]
      exact hitem
  · intro p' hp'
    obtain ⟨p, hp, hpeq⟩ := List.mem_map.mp hp'
    obtain ⟨hpaid, hq, hr, hf⟩ := hstats p hp
    subst hpeq
    by_cases hmatch : (p.sellerId == item.sellerId) = true
    · have heq : p.sellerId = item.sellerId := by simpa using hmatch
      have hcond : (item.sellerId == p.sellerId) = true := by simp [heq]
      refine ⟨?_, ?_, ?_, ?_⟩ <;>
        simp [payoutAdd, hmatch, payoutAdd_sellerId, sumContribOf_append, hcond,
          hpaid, hq, hr, hf]
    · have heq : ¬ p.sellerId = item.sellerId := by simpa using hmatch
      have hcond : (item.sellerId == p.sellerId) = false := by
        simp only [beq_eq_false_iff_ne, ne_eq]
        exact fun h => heq h.symm
      simp only [Bool.not_eq_true] at hmatch
      refine ⟨?_, ?_, ?_, ?_⟩ <;>
        simp [payoutAdd, hmatch, sumContribOf_append, hcond, hpaid, hq, hr, hf]

/-- One `preparellerPayouts` iteration preserves the grouping invariant. -/
theorem payoutStep_inv (processed : List CalcItem) (acc : List SellerPayout)
    (item : CalcItem) (h : PayoutInv processed acc) :
    PayoutInv (processed ++ [item]) (payoutStep acc item) := by
  obtain ⟨hkeys, hcov, hstats⟩ := h
  unfold payoutStep
  by_cases hpresent : acc.any (fun p => p.sellerId == item.sellerId) = true
  · simp only [hpresent, if_true]
    exact payoutMap_inv processed acc item ⟨hkeys, hcov, hstats⟩ hpresent
  · simp only [Bool.not_eq_true] at hpresent
    simp only [hpresent, Bool.false_eq_true, if_false]
    have hnotmem : item.sellerId ∉ acc.map SellerPayout.sellerId := by
      intro hmem
      obtain ⟨p, hp, hpeq⟩ := List.mem_map.mp hmem
      have := List.any_eq_false.mp hpresent p hp
      simp [hpeq] at this
    have hfresh : ∀ i ∈ processed, (i.sellerId == item.sellerId) = false := by
      intro i hi
      have hc := hcov i hi
      rw [Bool.eq_false_iff]
      intro hbeq
      have heq : i.sellerId = item.sellerId := by simpa using hbeq
      obtain ⟨p, hp, hpeq⟩ := List.any_eq_true.mp hc
      have hpeq' : p.sellerId = i.sellerId := by simpa using hpeq
      exact hnotmem (List.mem_map.mpr ⟨p, hp, by rw [hpeq', heq]⟩)
    have hinv1 : PayoutInv processed (acc ++ [zeroPayout item]) := by
      refine ⟨?_, ?_, ?_⟩
      · rw [List.map_append]
        rw [List.nodup_append]
        refine ⟨hkeys, by simp, ?_⟩
        intro a ha hmem
        simp [zeroPayout] at hmem
        rw [hmem] at ha
        exact hnotmem ha
      · intro i hi
        rw [List.any_append]
        rw [hcov i hi]
        rfl
      · intro p hp
        rcases List.mem_append.mp hp with hp | hp
        · exact hstats p hp
        · simp at hp
          subst hp
          refine ⟨rfl, ?_, ?_, ?_⟩ <;>
            simp [zeroPayout, sumContribOf_eq_zero _ _ _ hfresh]
    have hitem : (acc ++ [zeroPayout item]).any
        (fun p => p.sellerId == item.sellerId) = true := by
      rw [List.any_append]
      simp [zeroPayout]
    exact payoutMap_inv processed (acc ++ [zeroPayout item]) item hinv1 hitem

/-- The grouping invariant holds for the full `preparellerPayouts` fold. -/
theorem preparellerPayouts_inv (items : List CalcItem) :
    PayoutInv items (preparellerPayouts items) := by
  suffices h : ∀ (l : List CalcItem) (processed : List CalcItem)
      (acc : List SellerPayout), PayoutInv processed acc →
      PayoutInv (processed ++ l) (l.foldl payoutStep acc) by
    have := h items [] [] ⟨by simp, by simp, by simp⟩
    simpa [preparellerPayouts] using this
  intro l
  induction l with
  | nil => intro processed acc h; simpa using h
  | cons hd tl ih =>
    intro processed acc h
    have := ih (processed ++ [hd]) (payoutStep acc hd) (payoutStep_inv _ _ _ h)
    simpa using this

/-- `sumRevFee` over a cons. -/
theorem sumRevFee_cons (p : SellerPayout) (l : List SellerPayout) :
    sumRevFee (p :: l) = (p.revenue + p.serviceFee) + sumRevFee l := by
  simp [sumRevFee]

/-- Applying `payoutAdd` to a duplicate-free map adds exactly the item`s
total price to the map`s aggregate revenue + service fee (when the seller
is present). -/
theorem sumRevFee_map_payoutAdd (item : CalcItem) (l : List SellerPayout)
    (hkeys : (l.map SellerPayout.sellerId).Nodup) :
    sumRevFee (l.map (payoutAdd item))
      = sumRevFee l
        + (if l.any (fun p => p.sellerId == item.sellerId) then item.totalPrice
           else 0) := by
  induction l with
  | nil => simp [sumRevFee]
  | cons hd tl ih =>
    rw [List.map_cons, List.nodup_cons] at hkeys
    obtain ⟨hnm, htl⟩ := hkeys
    rw [List.map_cons, sumRevFee_cons, sumRevFee_cons, ih htl]
    by_cases hm : (hd.sellerId == item.sellerId) = true
    · have heq : hd.sellerId = item.sellerId := by simpa using hm
      have htlfalse : tl.any (fun p => p.sellerId == item.sellerId) = false := by
        rw [List.any_eq_false]
        intro p hp hbeq
        have hps : p.sellerId = item.sellerId := by simpa using hbeq
        exact hnm (List.mem_map.mpr ⟨p, hp, by rw [hps, heq]⟩)
      have hany : ((hd :: tl).any (fun p => p.sellerId == item.sellerId)) = true := by
        simp [hm]
      simp only [htlfalse, hany, if_true, Bool.false_eq_true, if_false]
      simp [payoutAdd, hm]
      ring
    · simp only [Bool.not_eq_true] at hm
      have hstep : payoutAdd item hd = hd := by simp [payoutAdd, hm]
      have hany : ((hd :: tl).any (fun p => p.sellerId == item.sellerId))
          = tl.any (fun p => p.sellerId == item.sellerId) := by simp [hm]
      rw [hstep]
      simp only [hany]
      cases hc : tl.any (fun p => p.sellerId == item.sellerId) <;> simp [hc] <;> ring

/-- One `preparellerPayouts` iteration adds the item`s total price to the
aggregate revenue + service fee. -/
theorem sumRevFee_payoutStep (acc : List SellerPayout) (item : CalcItem)
    (hkeys : (acc.map SellerPayout.sellerId).Nodup) :
    sumRevFee (payoutStep acc item) = sumRevFee acc + item.totalPrice := by
  unfold payoutStep
  by_cases hpresent : acc.any (fun p => p.sellerId == item.sellerId) = true
  · simp only [hpresent, if_true]
    rw [sumRevFee_map_payoutAdd item acc hkeys, hpresent]
    rfl
  · simp only [Bool.not_eq_true] at hpresent
    simp only [hpresent, Bool.false_eq_true, if_false]
    have hnotmem : item.sellerId ∉ acc.map SellerPayout.sellerId := by
      intro hmem
      obtain ⟨p, hp, hpeq⟩ := List.mem_map.mp hmem
      have := List.any_eq_false.mp hpresent p hp
      simp [hpeq] at this
    have hkeys1 : ((acc ++ [zeroPayout item]).map SellerPayout.sellerId).Nodup := by
      rw [List.map_append, List.nodup_append]
      refine ⟨hkeys, by simp, ?_⟩
      intro a ha hmem
      simp [zeroPayout] at hmem
      rw [hmem] at ha
      exact hnotmem ha
    have hany1 : (acc ++ [zeroPayout item]).any
        (fun p => p.sellerId == item.sellerId) = true := by
      rw [List.any_append]
      simp [zeroPayout]
    rw [sumRevFee_map_payoutAdd item _ hkeys1, hany1]
    simp [sumRevFee, zeroPayout]

/-- Aggregate revenue + service fee of the payouts equals the sum of the
items` total prices. -/
theorem preparellerPayouts_sumRevFee (items : List CalcItem) :
    sumRevFee (preparellerPayouts items) = (items.map CalcItem.totalPrice).sum := by
  suffices h : ∀ (l : List CalcItem) (processed : List CalcItem)
      (acc : List SellerPayout), PayoutInv processed acc →
      sumRevFee (l.foldl payoutStep acc)
        = sumRevFee acc + (l.map CalcItem.totalPrice).sum by
    have := h items [] [] ⟨by simp, by simp, by simp⟩
    simpa [preparellerPayouts, sumRevFee] using this
  intro l
  induction l with
  | nil => intro processed acc _; simp
  | cons hd tl ih =>
    intro processed acc h
    have hstep := sumRevFee_payoutStep acc hd h.1
    have := ih (processed ++ [hd]) (payoutStep acc hd) (payoutStep_inv _ _ _ h)
    rw [List.foldl_cons, this, hstep]
    simp
    ring

/-- A payout-field mutation that keeps `payoutStats` fixed keeps the whole
stats list fixed under `List.modify`. -/
theorem map_payoutStats_modify (f : SellerPayout → SellerPayout)
    (hf : ∀ p, payoutStats (f p) = payoutStats p) (l : List SellerPayout) :
    ∀ i : ℕ, (List.modify f i l).map payoutStats = l.map payoutStats := by
  induction l with
  | nil => intro i; simp
  | cons hd tl ih =>
    intro i
    cases i with
    | zero => simp [List.modify, List.modifyTailIdx, hf]
    | succ n =>
      simp [List.modify, List.modifyTailIdx]
      have := ih n
      simpa [List.modify, List.modifyTailIdx] using this

/-- C6 (amended): seller payouts group the calculated items by seller id —
each payout holds the sums of its seller`s quantities, `totalPrice -
itemServiceFee` (revenue) and `itemServiceFee`, starting unpaid; the sum
over all payouts of `revenue + serviceFee` equals the sum of the items`
total prices, which for an order calculation with no unavailable items is
the order`s `subtotal` (not `subtotal + totalServiceFee`); and payout
processing never changes these amounts (it only sets `paid`,
`payoutReference`, `paidAt`). -/
theorem C6_payout_partition (items : List CalcItem)
    (products : String → Option Product) (reqs : List RequestedItem)
    (buyerId : String) (r : OrderCalculation) (st : St) (now : ℕ)
    (orderId : String) (payoutDto : ProcessSellerPayoutDto)
    (hcalc : calculateOrder products reqs buyerId = .ok r)
    (hempty : r.unavailableItems = [])
    (hok : (processSellerPayout st now orderId payoutDto).2 = .ok ()) :
    (∀ p ∈ preparellerPayouts items,
      p.paid = false ∧
      p.itemCount = sumContribOf p.sellerId CalcItem.quantity items ∧
      p.revenue = sumContribOf p.sellerId
        (fun i => i.totalPrice - i.itemServiceFee) items ∧
      p.serviceFee = sumContribOf p.sellerId CalcItem.itemServiceFee items) ∧
    sumRevFee (preparellerPayouts items) = (items.map CalcItem.totalPrice).sum ∧
    sumRevFee (preparellerPayouts r.items) = r.subtotal ∧
    ((processSellerPayout st now orderId payoutDto).1.orders orderId).map
        (fun o => o.sellerPayouts.map payoutStats)
      = (st.orders orderId).map (fun o => o.sellerPayouts.map payoutStats) := by
  refine ⟨(preparellerPayouts_inv items).2.2, preparellerPayouts_sumRevFee items,
    ?_, ?_⟩
  · -- over an all-available calculation the aggregate is the subtotal
    rw [preparellerPayouts_sumRevFee]
    unfold calculateOrder at hcalc
    split at hcalc
    · cases hcalc
    · have hinv := calcFold_inv products buyerId reqs emptyCalculation calcInv_empty
      obtain ⟨h1, _, _, _, _, h6, _, _⟩ := hinv
      rw [Except.ok.injEq] at hcalc
      subst hcalc
      simp only at hempty h1 h6 ⊢
      have hall : ∀ i ∈ (reqs.foldl (calcStep products buyerId)
          emptyCalculation).items, i.available = true := by
        intro i hi
        cases hA : i.available with
        | false =>
          have hmem := h6 i hi hA
          rw [hempty] at hmem
          cases hmem
        | true => rfl
      rw [h1, List.filter_eq_self.mpr hall]
      rfl
  · -- payout processing preserves the stats of every payout
    unfold processSellerPayout at hok ⊢
    cases horder : st.orders orderId with
    | none => simp [horder] at hok
    | some order =>
      simp only [horder] at hok
      simp only []
      cases hidx : List.findIdx? (fun p => p.sellerId == payoutDto.sellerId)
          order.sellerPayouts with
      | none => simp [hidx] at hok
      | some i =>
        simp only []
        simp [saveOrder, horder]
        rw [map_payoutStats_modify
          (fun p => { p with
            paid := true
            payoutReference := some payoutDto.payoutReference
            paidAt := some now })
          (fun p => rfl) _ i]

/-- C6 counterexample (to the claim as stated): for the one-item
calculation, the payouts` aggregate `revenue + serviceFee` is 1000 — the
subtotal — while `subtotal + totalServiceFee` is 1035. -/
theorem C6_counterexample :
    calculateOrder exProductsOK exReqsOK "buyerbuyer01" = .ok exCalcOKResult ∧
    sumRevFee (preparellerPayouts exCalcOKResult.items) = 1000 ∧
    exCalcOKResult.subtotal + exCalcOKResult.totalServiceFee = 1035 ∧
    (1000 : ℚ) ≠ 1035 :=
  ⟨exCalcOK_eval,
    by norm_num [preparellerPayouts, payoutStep, zeroPayout, payoutAdd,
      sumRevFee, exCalcOKResult, exItemOK],
    by norm_num [exCalcOKResult],
    by norm_num⟩

/-- C6 witness: the amended theorem applied to the concrete calculation and
a concrete payout-processing request. -/
theorem C6_witness :
    (processSellerPayout exStC6 9 "orderorder06" exDtoC6).2 = .ok () ∧
    exCalcOKResult.unavailableItems = [] ∧
    ((∀ p ∈ preparellerPayouts exCalcOKResult.items,
      p.paid = false ∧
      p.itemCount = sumContribOf p.sellerId CalcItem.quantity
        exCalcOKResult.items ∧
      p.revenue = sumContribOf p.sellerId
        (fun i => i.totalPrice - i.itemServiceFee) exCalcOKResult.items ∧
      p.serviceFee = sumContribOf p.sellerId CalcItem.itemServiceFee
        exCalcOKResult.items) ∧
    sumRevFee (preparellerPayouts exCalcOKResult.items)
      = (exCalcOKResult.items.map CalcItem.totalPrice).sum ∧
    sumRevFee (preparellerPayouts exCalcOKResult.items) = exCalcOKResult.subtotal ∧
    ((processSellerPayout exStC6 9 "orderorder06" exDtoC6).1.orders
        "orderorder06").map (fun o => o.sellerPayouts.map payoutStats)
      = (exStC6.orders "orderorder06").map
          (fun o => o.sellerPayouts.map payoutStats)) :=
  ⟨rfl, rfl,
    C6_payout_partition exCalcOKResult.items exProductsOK exReqsOK
      "buyerbuyer01" exCalcOKResult exStC6 9 "orderorder06" exDtoC6
      exCalcOK_eval rfl rfl⟩

/-- The inventory decrement touches only the products collection. -/
theorem updateProductAfterPayment_frame (st : St) (now : ℕ) (productId : String)
    (quantity : ℚ) :
    (updateProductAfterPayment st now productId quantity).orders = st.orders ∧
    (updateProductAfterPayment st now productId quantity).orderItems
      = st.orderItems ∧
    (updateProductAfterPayment st now productId quantity).payments
      = st.payments := by
  unfold updateProductAfterPayment saveProduct
  split
  · exact ⟨rfl, rfl, rfl⟩
  · simp only []
    split <;> exact ⟨rfl, rfl, rfl⟩

/-- The decrement at one product id does not touch other products. -/
theorem updateProductAfterPayment_products_other (st : St) (now : ℕ)
    (productId : String) (quantity : ℚ) (pid : String) (h : pid ≠ productId) :
    (updateProductAfterPayment st now productId quantity).products pid
      = st.products pid := by
  unfold updateProductAfterPayment saveProduct
  split
  · rfl
  · simp only []
    split <;> simp [h]

/-- The decrement at one product id performs exactly the pin-to-zero
decrement of the stored value. -/
theorem updateProductAfterPayment_products_self (st : St) (now : ℕ)
    (productId : String) (quantity : ℚ) :
    (updateProductAfterPayment st now productId quantity).products productId
      = decrementedProduct now quantity (st.products productId) := by
  unfold updateProductAfterPayment saveProduct decrementedProduct
  cases h : st.products productId with
  | none => simp [h]
  | some p =>
    simp only []
    split <;> simp

/-- The decrement loop touches only the products collection. -/
theorem applyInventoryDecrements_frame (now : ℕ) (items : List OrderItem) :
    ∀ st : St,
    (applyInventoryDecrements st now items).orders = st.orders ∧
    (applyInventoryDecrements st now items).orderItems = st.orderItems ∧
    (applyInventoryDecrements st now items).payments = st.payments := by
  induction items with
  | nil => intro st; exact ⟨rfl, rfl, rfl⟩
  | cons hd tl ih =>
    intro st
    have h1 := updateProductAfterPayment_frame st now hd.productId hd.quantity
    have h2 := ih (updateProductAfterPayment st now hd.productId hd.quantity)
    unfold applyInventoryDecrements at h2 ⊢
    rw [List.foldl_cons]
    exact ⟨h2.1.trans h1.1, h2.2.1.trans h1.2.1, h2.2.2.trans h1.2.2⟩

/-- A product referenced by none of the items is untouched by the
decrement loop. -/
theorem applyInventoryDecrements_not_mem (now : ℕ) (items : List OrderItem)
    (pid : String) (h : pid ∉ items.map OrderItem.productId) :
    ∀ st : St, (applyInventoryDecrements st now items).products pid
      = st.products pid := by
  induction items with
  | nil => intro st; rfl
  | cons hd tl ih =>
    intro st
    rw [List.map_cons, List.mem_cons] at h
    push_neg at h
    unfold applyInventoryDecrements
    rw [List.foldl_cons]
    have := ih (fun hm => h.2 hm) (updateProductAfterPayment st now hd.productId hd.quantity)
    unfold applyInventoryDecrements at this
    rw [this]
    exact updateProductAfterPayment_products_other _ _ _ _ _ h.1

/-- When the items reference pairwise distinct products, the decrement
loop performs exactly one pin-to-zero decrement on each item`s product. -/
theorem applyInventoryDecrements_mem (now : ℕ) (items : List OrderItem)
    (hnodup : (items.map OrderItem.productId).Nodup) (it : OrderItem)
    (hit : it ∈ items) :
    ∀ st : St, (applyInventoryDecrements st now items).products it.productId
      = decrementedProduct now it.quantity (st.products it.productId) := by
  induction items with
  | nil => cases hit
  | cons hd tl ih =>
    intro st
    rw [List.map_cons, List.nodup_cons] at hnodup
    obtain ⟨hnm, htl⟩ := hnodup
    unfold applyInventoryDecrements
    rw [List.foldl_cons]
    rcases List.mem_cons.mp hit with heq | hmem
    · subst heq
      have hnotin : it.productId ∉ tl.map OrderItem.productId := hnm
      have := applyInventoryDecrements_not_mem now tl it.productId hnotin
        (updateProductAfterPayment st now it.productId it.quantity)
      unfold applyInventoryDecrements at this
      rw [this]
      exact updateProductAfterPayment_products_self st now it.productId it.quantity
    · have hne : it.productId ≠ hd.productId := by
        intro heq
        exact hnm (heq ▸ List.mem_map.mpr ⟨it, hmem, rfl⟩)
      have := ih htl hmem (updateProductAfterPayment st now hd.productId hd.quantity)
      unfold applyInventoryDecrements at this
      rw [this, updateProductAfterPayment_products_other _ _ _ _ _ hne]

/-- The quantity restore touches only the products collection. -/
theorem restoreItemQuantity_frame (st : St) (item : OrderItem) :
    (restoreItemQuantity st item).orders = st.orders ∧
    (restoreItemQuantity st item).orderItems = st.orderItems ∧
    (restoreItemQuantity st item).payments = st.payments := by
  unfold restoreItemQuantity saveProduct
  split <;> exact ⟨rfl, rfl, rfl⟩

/-- The restore for one item does not touch other products. -/
theorem restoreItemQuantity_products_other (st : St) (item : OrderItem)
    (pid : String) (h : pid ≠ item.productId) :
    (restoreItemQuantity st item).products pid = st.products pid := by
  unfold restoreItemQuantity saveProduct
  split
  · rfl
  · simp [h]

/-- The restore for one item adds the quantity back and clears the sold
flag on the stored value. -/
theorem restoreItemQuantity_products_self (st : St) (item : OrderItem) :
    (restoreItemQuantity st item).products item.productId
      = restoredProduct item.quantity (st.products item.productId) := by
  unfold restoreItemQuantity saveProduct restoredProduct
  cases h : st.products item.productId with
  | none => simp [h]
  | some p => simp only []; simp

/-- A fold of per-item restores touches only products. -/
theorem restoreFold_frame (items : List OrderItem) :
    ∀ st : St,
    (items.foldl restoreItemQuantity st).orders = st.orders ∧
    (items.foldl restoreItemQuantity st).orderItems = st.orderItems ∧
    (items.foldl restoreItemQuantity st).payments = st.payments := by
  induction items with
  | nil => intro st; exact ⟨rfl, rfl, rfl⟩
  | cons hd tl ih =>
    intro st
    have h1 := restoreItemQuantity_frame st hd
    have h2 := ih (restoreItemQuantity st hd)
    rw [List.foldl_cons]
    exact ⟨h2.1.trans h1.1, h2.2.1.trans h1.2.1, h2.2.2.trans h1.2.2⟩

/-- A product referenced by none of the items is untouched by a restore
fold. -/
theorem restoreFold_not_mem (items : List OrderItem) (pid : String)
    (h : pid ∉ items.map OrderItem.productId) :
    ∀ st : St, (items.foldl restoreItemQuantity st).products pid
      = st.products pid := by
  induction items with
  | nil => intro st; rfl
  | cons hd tl ih =>
    intro st
    rw [List.map_cons, List.mem_cons] at h
    push_neg at h
    rw [List.foldl_cons, ih (fun hm => h.2 hm)]
    exact restoreItemQuantity_products_other _ _ _ h.1

/-- When the items reference pairwise distinct products, a restore fold
performs exactly one restore on each item`s product. -/
theorem restoreFold_mem (items : List OrderItem)
    (hnodup : (items.map OrderItem.productId).Nodup) (it : OrderItem)
    (hit : it ∈ items) :
    ∀ st : St, (items.foldl restoreItemQuantity st).products it.productId
      = restoredProduct it.quantity (st.products it.productId) := by
  induction items with
  | nil => cases hit
  | cons hd tl ih =>
    intro st
    rw [List.map_cons, List.nodup_cons] at hnodup
    obtain ⟨hnm, htl⟩ := hnodup
    rw [List.foldl_cons]
    rcases List.mem_cons.mp hit with heq | hmem
    · subst heq
      rw [restoreFold_not_mem tl it.productId hnm]
      exact restoreItemQuantity_products_self st it
    · have hne : it.productId ≠ hd.productId := by
        intro heq
        exact hnm (heq ▸ List.mem_map.mpr ⟨it, hmem, rfl⟩)
      rw [ih htl hmem, restoreItemQuantity_products_other _ _ _ hne]

/-- Filtering by order id commutes with a map that preserves the order
id. -/
theorem filter_orderId_map (l : List OrderItem) (f : OrderItem → OrderItem)
    (oid : String) (hf : ∀ it, (f it).orderId = it.orderId) :
    (l.map f).filter (fun it => it.orderId == oid)
      = (l.filter (fun it => it.orderId == oid)).map f := by
  induction l with
  | nil => rfl
  | cons hd tl ih =>
    rw [List.map_cons, List.filter_cons, List.filter_cons, hf hd]
    split
    · rw [List.map_cons, ih]
    · exact ih

/-- `setItemConfirmed` only changes the item status. -/
theorem setItemConfirmed_fields (oid : String) (it : OrderItem) :
    (setItemConfirmed oid it).orderId = it.orderId ∧
    (setItemConfirmed oid it).productId = it.productId ∧
    (setItemConfirmed oid it).quantity = it.quantity := by
  unfold setItemConfirmed
  split <;> exact ⟨rfl, rfl, rfl⟩

/-- `setItemCancelled` only changes the status, timestamp and reason. -/
theorem setItemCancelled_fields (oid : String) (now : ℕ) (reason : Option String)
    (it : OrderItem) :
    (setItemCancelled oid now reason it).orderId = it.orderId ∧
    (setItemCancelled oid now reason it).productId = it.productId ∧
    (setItemCancelled oid now reason it).quantity = it.quantity := by
  unfold setItemCancelled
  split <;> exact ⟨rfl, rfl, rfl⟩

/-- Full characterisation of `confirmPayment` (shared helper; claim C4
restates it). -/
theorem confirmPayment_effect (st : St) (now : ℕ) (orderId : String)
    (paymentData : PaymentData) (order : Order)
    (horder : st.orders orderId = some order)
    (hnodup : ((itemsOfOrder st orderId).map OrderItem.productId).Nodup) :
    (confirmPayment st now orderId paymentData).2 = .ok () ∧
    (confirmPayment st now orderId paymentData).1.orders orderId
      = some { order with
        paymentStatus := .completed
        paidAt := some now
        paymentReference := some paymentData.reference
        paymentMethod := some paymentData.method
        paymentGateway := some paymentData.gateway
        status := if order.status == .pending then .confirmed else order.status
        confirmedAt := if order.status == .pending then some now
          else order.confirmedAt
        statusHistory := order.statusHistory
          ++ ["Payment confirmed - " ++ toString now] } ∧
    (confirmPayment st now orderId paymentData).1.orderItems
      = st.orderItems.map (setItemConfirmed orderId) ∧
    (∀ it ∈ (confirmPayment st now orderId paymentData).1.orderItems,
      it.orderId = orderId → it.itemStatus = "confirmed") ∧
    (∀ it ∈ itemsOfOrder st orderId,
      (confirmPayment st now orderId paymentData).1.products it.productId
        = decrementedProduct now it.quantity (st.products it.productId)) ∧
    (∀ oid, oid ≠ orderId →
      (confirmPayment st now orderId paymentData).1.orders oid
        = st.orders oid) ∧
    (∀ pid, pid ∉ (itemsOfOrder st orderId).map OrderItem.productId →
      (confirmPayment st now orderId paymentData).1.products pid
        = st.products pid) ∧
    (confirmPayment st now orderId paymentData).1.payments = st.payments := by
  unfold confirmPayment
  simp only [horder]
  have hframe := applyInventoryDecrements_frame now (itemsOfOrder st orderId)
  refine ⟨trivial, ?_, ?_, ?_, ?_, ?_, ?_, ?_⟩
  · rw [(hframe _).1]
    simp only [saveOrder, beq_self_eq_true, if_true]
    by_cases hs : (order.status == OrderStatus.pending) = true <;> simp [hs]
  · exact (hframe _).2.1
  · intro it hit hoid
    rw [(hframe _).2.1] at hit
    obtain ⟨orig, _, heq⟩ := List.mem_map.mp hit
    subst heq
    unfold setItemConfirmed at hoid ⊢
    by_cases ho : (orig.orderId == orderId) = true
    · simp [ho]
    · simp only [ho, Bool.false_eq_true, if_false] at hoid
      exact absurd (by simp [hoid]) ho
  · intro it hit
    rw [applyInventoryDecrements_mem now _ hnodup it hit]
    rfl
  · intro oid hne
    rw [(hframe _).1]
    simp [saveOrder, hne]
  · intro pid hnm
    rw [applyInventoryDecrements_not_mem now _ pid hnm]
    rfl
  · exact (hframe _).2.2

/-- C4: `confirmPayment` performs exactly the compound effect: payment
status COMPLETED with `paidAt` and the payment reference/method/gateway
copied onto the order, the status advanced to CONFIRMED exactly when it
was still PENDING, a history entry appended, every order item marked
`confirmed`, and each item`s product decremented by the item quantity
(pinned to 0 and marked sold when the decrement reaches zero or below);
nothing else changes. -/
theorem C4_confirm_payment_effect (st : St) (now : ℕ) (orderId : String)
    (paymentData : PaymentData) (order : Order)
    (horder : st.orders orderId = some order)
    (hnodup : ((itemsOfOrder st orderId).map OrderItem.productId).Nodup) :
    (confirmPayment st now orderId paymentData).2 = .ok () ∧
    (confirmPayment st now orderId paymentData).1.orders orderId
      = some { order with
        paymentStatus := .completed
        paidAt := some now
        paymentReference := some paymentData.reference
        paymentMethod := some paymentData.method
        paymentGateway := some paymentData.gateway
        status := if order.status == .pending then .confirmed else order.status
        confirmedAt := if order.status == .pending then some now
          else order.confirmedAt
        statusHistory := order.statusHistory
          ++ ["Payment confirmed - " ++ toString now] } ∧
    (confirmPayment st now orderId paymentData).1.orderItems
      = st.orderItems.map (setItemConfirmed orderId) ∧
    (∀ it ∈ (confirmPayment st now orderId paymentData).1.orderItems,
      it.orderId = orderId → it.itemStatus = "confirmed") ∧
    (∀ it ∈ itemsOfOrder st orderId,
      (confirmPayment st now orderId paymentData).1.products it.productId
        = decrementedProduct now it.quantity (st.products it.productId)) ∧
    (∀ oid, oid ≠ orderId →
      (confirmPayment st now orderId paymentData).1.orders oid
        = st.orders oid) ∧
    (∀ pid, pid ∉ (itemsOfOrder st orderId).map OrderItem.productId →
      (confirmPayment st now orderId paymentData).1.products pid
        = st.products pid) ∧
    (confirmPayment st now orderId paymentData).1.payments = st.payments :=
  confirmPayment_effect st now orderId paymentData order horder hnodup

/-- C4 witness: the compound payment-confirmation effect at a concrete
pending order with one item. -/
theorem C4_witness :
    exStC4.orders "orderorder01" = some baseOrder ∧
    ((itemsOfOrder exStC4 "orderorder01").map OrderItem.productId).Nodup ∧
    ((confirmPayment exStC4 11 "orderorder01" exPaymentData).2 = .ok () ∧
    (confirmPayment exStC4 11 "orderorder01" exPaymentData).1.orders "orderorder01"
      = some { baseOrder with
        paymentStatus := .completed
        paidAt := some 11
        paymentReference := some exPaymentData.reference
        paymentMethod := some exPaymentData.method
        paymentGateway := some exPaymentData.gateway
        status := if baseOrder.status == .pending then .confirmed
          else baseOrder.status
        confirmedAt := if baseOrder.status == .pending then some 11
          else baseOrder.confirmedAt
        statusHistory := baseOrder.statusHistory
          ++ ["Payment confirmed - " ++ toString 11] } ∧
    (confirmPayment exStC4 11 "orderorder01" exPaymentData).1.orderItems
      = exStC4.orderItems.map (setItemConfirmed "orderorder01") ∧
    (∀ it ∈ (confirmPayment exStC4 11 "orderorder01" exPaymentData).1.orderItems,
      it.orderId = "orderorder01" → it.itemStatus = "confirmed") ∧
    (∀ it ∈ itemsOfOrder exStC4 "orderorder01",
      (confirmPayment exStC4 11 "orderorder01" exPaymentData).1.products
          it.productId
        = decrementedProduct 11 it.quantity (exStC4.products it.productId)) ∧
    (∀ oid, oid ≠ "orderorder01" →
      (confirmPayment exStC4 11 "orderorder01" exPaymentData).1.orders oid
        = exStC4.orders oid) ∧
    (∀ pid, pid ∉ (itemsOfOrder exStC4 "orderorder01").map OrderItem.productId →
      (confirmPayment exStC4 11 "orderorder01" exPaymentData).1.products pid
        = exStC4.products pid) ∧
    (confirmPayment exStC4 11 "orderorder01" exPaymentData).1.payments
      = exStC4.payments) :=
  ⟨rfl, by decide,
    C4_confirm_payment_effect exStC4 11 "orderorder01" exPaymentData baseOrder
      rfl (by decide)⟩

/-- Restoring after a pin-to-zero decrement returns the product to its
original stock with the sold flag cleared, provided the decremented
quantity did not exceed the stock. -/
theorem restore_after_decrement (now : ℕ) (q : ℚ) (p : Product)
    (hq : q ≤ p.quantity) :
    restoredProduct q (decrementedProduct now q (some p))
      = some { p with sold := false, soldAt := none } := by
  unfold restoredProduct decrementedProduct
  simp only []
  by_cases hle : p.quantity - q ≤ 0
  · rw [if_pos hle]
    have hpq : p.quantity = q := le_antisymm (by linarith) hq
    simp [hpq]
  · rw [if_neg hle]
    simp

/-- C5: confirming payment and then cancelling the order (by an admin)
returns each item`s product — stock `S`, decremented by the item quantity
`Q ≤ S` at confirmation — to quantity `S` with the sold flag cleared and
`soldAt` unset, succeeds with a CANCELLED order carrying the reason and
timestamp, and marks every order item `cancelled` with that same reason
and timestamp. -/
theorem C5_cancellation_restores_stock (st : St) (now1 now2 : ℕ)
    (orderId : String) (paymentData : PaymentData) (userId : String)
    (reason : Option String) (order : Order) (it : OrderItem) (p : Product)
    (hvalid : isValidObjectId orderId = true)
    (horder : st.orders orderId = some order)
    (hstatus : order.status = OrderStatus.pending
      ∨ order.status = OrderStatus.confirmed
      ∨ order.status = OrderStatus.processing)
    (hnodup : ((itemsOfOrder st orderId).map OrderItem.productId).Nodup)
    (hit : it ∈ itemsOfOrder st orderId)
    (hprod : st.products it.productId = some p)
    (hq : it.quantity ≤ p.quantity) :
    (∃ o2,
      (updateStatus (confirmPayment st now1 orderId paymentData).1 now2 orderId
        { status := .cancelled, reason := reason, trackingNumber := none
          carrierName := none, adminNotes := none } userId "admin").2
        = .ok o2 ∧
      o2.status = .cancelled ∧ o2.cancelledAt = some now2 ∧
      o2.cancellationReason = reason) ∧
    (updateStatus (confirmPayment st now1 orderId paymentData).1 now2 orderId
        { status := .cancelled, reason := reason, trackingNumber := none
          carrierName := none, adminNotes := none } userId "admin").1.products
        it.productId
      = some { p with sold := false, soldAt := none } ∧
    (∀ it' ∈ (updateStatus (confirmPayment st now1 orderId paymentData).1 now2
        orderId
        { status := .cancelled, reason := reason, trackingNumber := none
          carrierName := none, adminNotes := none } userId "admin").1.orderItems,
      it'.orderId = orderId →
        it'.itemStatus = "cancelled" ∧ it'.cancelledAt = some now2 ∧
        it'.cancellationReason = reason) := by
  obtain ⟨-, h2orders, h3items, -, h5prod, -, -, -⟩ :=
    confirmPayment_effect st now1 orderId paymentData order horder hnodup
  have hitems1 : itemsOfOrder (confirmPayment st now1 orderId paymentData).1
      orderId = (itemsOfOrder st orderId).map (setItemConfirmed orderId) := by
    unfold itemsOfOrder at *
    rw [h3items]
    exact filter_orderId_map _ _ _ (fun it => (setItemConfirmed_fields _ it).1)
  have hnodup1 : ((itemsOfOrder (confirmPayment st now1 orderId paymentData).1
      orderId).map OrderItem.productId).Nodup := by
    rw [hitems1, List.map_map]
    have hmapeq : (OrderItem.productId ∘ setItemConfirmed orderId)
        = OrderItem.productId :=
      funext fun it => (setItemConfirmed_fields _ it).2.1
    rw [hmapeq]
    exact hnodup
  have hperm : canUpdateOrderStatus ({ order with
      paymentStatus := .completed
      paidAt := some now1
      paymentReference := some paymentData.reference
      paymentMethod := some paymentData.method
      paymentGateway := some paymentData.gateway
      status := if order.status == .pending then .confirmed else order.status
      confirmedAt := if order.status == .pending then some now1
        else order.confirmedAt
      statusHistory := order.statusHistory
        ++ ["Payment confirmed - " ++ toString now1] }) userId "admin"
      OrderStatus.cancelled = .ok true := rfl
  have hvt : validateStatusTransition
      (if order.status == OrderStatus.pending then OrderStatus.confirmed
       else order.status) OrderStatus.cancelled = .ok () := by
    rcases hstatus with h | h | h <;>
      simp [validateStatusTransition, validTransitions, h]
  unfold updateStatus
  simp only [hvalid, Bool.not_eq_true, not_true, Bool.true_eq_false, if_false,
    ite_false, h2orders, hperm, hvt]
  have hrestframe := restoreFold_frame
    ((itemsOfOrder st orderId).map (setItemConfirmed orderId))
  refine ⟨⟨_, rfl, rfl, rfl, rfl⟩, ?_, ?_⟩
  · -- product restored
    simp only [saveOrder]
    unfold restoreProductQuantity
    rw [hitems1]
    have hmem1 : setItemConfirmed orderId it
        ∈ (itemsOfOrder st orderId).map (setItemConfirmed orderId) :=
      List.mem_map.mpr ⟨it, hit, rfl⟩
    have hres := restoreFold_mem _
      (by
        rw [List.map_map]
        have hmapeq : (OrderItem.productId ∘ setItemConfirmed orderId)
            = OrderItem.productId :=
          funext fun i => (setItemConfirmed_fields _ i).2.1
        rw [hmapeq]
        exact hnodup)
      (setItemConfirmed orderId it) hmem1
      (confirmPayment st now1 orderId paymentData).1
    rw [(setItemConfirmed_fields _ it).2.1, (setItemConfirmed_fields _ it).2.2]
      at hres
    rw [hres]
    rw [h5prod it hit, hprod]
    exact restore_after_decrement now1 it.quantity p hq
  · -- items marked cancelled
    intro it' hit' hoid
    simp only [saveOrder] at hit'
    unfold restoreProductQuantity at hit'
    rw [hitems1] at hit'
    rw [(hrestframe _).2.1, h3items] at hit'
    rw [List.map_map] at hit'
    obtain ⟨orig, _, heq⟩ := List.mem_map.mp hit'
    subst heq
    simp only [Function.comp] at hoid ⊢
    unfold setItemCancelled setItemConfirmed at hoid ⊢
    by_cases ho : (orig.orderId == orderId) = true
    · simp [ho]
    · simp only [ho, Bool.false_eq_true, if_false] at hoid ⊢
      exact absurd (by simp [hoid]) ho

/-- C5 witness: confirm payment then cancel on the concrete pending order;
the product returns to 5 in stock, unsold. -/
theorem C5_witness :
    isValidObjectId "orderorder01" = true ∧
    exStC4.orders "orderorder01" = some baseOrder ∧
    (baseOrder.status = OrderStatus.pending
      ∨ baseOrder.status = OrderStatus.confirmed
      ∨ baseOrder.status = OrderStatus.processing) ∧
    ((itemsOfOrder exStC4 "orderorder01").map OrderItem.productId).Nodup ∧
    baseItem ∈ itemsOfOrder exStC4 "orderorder01" ∧
    exStC4.products baseItem.productId = some baseProduct ∧
    baseItem.quantity ≤ baseProduct.quantity ∧
    ((∃ o2,
      (updateStatus (confirmPayment exStC4 11 "orderorder01" exPaymentData).1 13
        "orderorder01"
        { status := .cancelled, reason := some "damaged in transit"
          trackingNumber := none, carrierName := none, adminNotes := none }
        "adminadmin01" "admin").2 = .ok o2 ∧
      o2.status = .cancelled ∧ o2.cancelledAt = some 13 ∧
      o2.cancellationReason = some "damaged in transit") ∧
    (updateStatus (confirmPayment exStC4 11 "orderorder01" exPaymentData).1 13
        "orderorder01"
        { status := .cancelled, reason := some "damaged in transit"
          trackingNumber := none, carrierName := none, adminNotes := none }
        "adminadmin01" "admin").1.products baseItem.productId
      = some { baseProduct with sold := false, soldAt := none } ∧
    (∀ it' ∈ (updateStatus (confirmPayment exStC4 11 "orderorder01"
        exPaymentData).1 13 "orderorder01"
        { status := .cancelled, reason := some "damaged in transit"
          trackingNumber := none, carrierName := none, adminNotes := none }
        "adminadmin01" "admin").1.orderItems,
      it'.orderId = "orderorder01" →
        it'.itemStatus = "cancelled" ∧ it'.cancelledAt = some 13 ∧
        it'.cancellationReason = some "damaged in transit")) :=
  ⟨by decide, rfl, Or.inl rfl, by decide, by decide, rfl,
    by norm_num [baseItem, baseProduct],
    C5_cancellation_restores_stock exStC4 11 13 "orderorder01" exPaymentData
      "adminadmin01" (some "damaged in transit") baseOrder baseItem baseProduct
      (by decide) rfl (Or.inl rfl) (by decide) (by decide) rfl
      (by norm_num [baseItem, baseProduct])⟩

/-- C9: on a payment whose local status is already COMPLETED,
`verifyPayment` returns the cached result without contacting the gateway
(no gateway call is recorded) and without any state change, so calling it
twice returns the same result both times. -/
theorem C9_verify_completed_short_circuit (gw : String → GatewayVerifyResponse)
    (st : St) (now : ℕ) (reference : String) (payment : Payment)
    (hpay : findPaymentByReference st reference = some payment)
    (hcompleted : payment.status = .completed) :
    verifyPayment gw st now reference =
      (st, [], .ok {
        message := "Payment already verified"
        reference := payment.reference
        status := payment.status
        amount := payment.amount
        currency := payment.currency
        paidAt := payment.paidAt
        gatewayResponse := payment.gatewayResponse
        orderId := payment.orderId }) ∧
    verifyPayment gw (verifyPayment gw st now reference).1 now reference
      = verifyPayment gw st now reference := by
  have h1 : verifyPayment gw st now reference =
      (st, [], .ok {
        message := "Payment already verified"
        reference := payment.reference
        status := payment.status
        amount := payment.amount
        currency := payment.currency
        paidAt := payment.paidAt
        gatewayResponse := payment.gatewayResponse
        orderId := payment.orderId }) := by
    unfold verifyPayment
    simp [hpay, hcompleted]
  refine ⟨h1, ?_⟩
  rw [h1]
  exact h1

/-- C9 witness: the short-circuit at a concrete completed payment. -/
theorem C9_witness :
    findPaymentByReference exStC9 "REF9" = some exPaymentC9 ∧
    exPaymentC9.status = PaymentStatus.completed ∧
    (verifyPayment exGw exStC9 21 "REF9" =
      (exStC9, [], .ok {
        message := "Payment already verified"
        reference := exPaymentC9.reference
        status := exPaymentC9.status
        amount := exPaymentC9.amount
        currency := exPaymentC9.currency
        paidAt := exPaymentC9.paidAt
        gatewayResponse := exPaymentC9.gatewayResponse
        orderId := exPaymentC9.orderId }) ∧
    verifyPayment exGw (verifyPayment exGw exStC9 21 "REF9").1 21 "REF9"
      = verifyPayment exGw exStC9 21 "REF9") :=
  ⟨rfl, rfl,
    C9_verify_completed_short_circuit exGw exStC9 21 "REF9" exPaymentC9 rfl rfl⟩

/-- The parts of `confirmPayment`s effect that need no assumption on the
order`s items (shared helper). -/
theorem confirmPayment_basic (st : St) (now : ℕ) (orderId : String)
    (paymentData : PaymentData) (order : Order)
    (horder : st.orders orderId = some order) :
    (confirmPayment st now orderId paymentData).2 = .ok () ∧
    (confirmPayment st now orderId paymentData).1.orders orderId
      = some { order with
        paymentStatus := .completed
        paidAt := some now
        paymentReference := some paymentData.reference
        paymentMethod := some paymentData.method
        paymentGateway := some paymentData.gateway
        status := if order.status == .pending then .confirmed else order.status
        confirmedAt := if order.status == .pending then some now
          else order.confirmedAt
        statusHistory := order.statusHistory
          ++ ["Payment confirmed - " ++ toString now] } ∧
    (confirmPayment st now orderId paymentData).1.payments = st.payments := by
  unfold confirmPayment
  simp only [horder]
  have hframe := applyInventoryDecrements_frame now (itemsOfOrder st orderId)
  refine ⟨trivial, ?_, (hframe _).2.2⟩
  rw [(hframe _).1]
  simp only [saveOrder, beq_self_eq_true, if_true]
  by_cases hs : (order.status == OrderStatus.pending) = true <;> simp [hs]

/-- Looking a payment up by id after `updatePaymentById` at that id
returns the updated record, provided the update keeps the id. -/
theorem findPaymentById_update (st : St) (pid : String)
    (f : Payment → Payment) (hf : ∀ q, (f q).id = q.id) :
    findPaymentById (updatePaymentById st pid f) pid
      = (findPaymentById st pid).map f := by
  unfold findPaymentById updatePaymentById
  induction st.payments with
  | nil => rfl
  | cons hd tl ih =>
    rw [List.map_cons, List.find?_cons, List.find?_cons]
    by_cases hid : (hd.id == pid) = true
    · have h2 : ((f hd).id == pid) = true := by rw [hf]; exact hid
      simp [hid, h2]
    · simp only [Bool.not_eq_true] at hid
      have h1 : ((if (hd.id == pid) = true then f hd else hd).id == pid) = false := by
        simp [hid]
      simp only [hid, Bool.false_eq_true, if_false, h1]
      exact ih

/-- C10: the verification short-circuit applies only to COMPLETED — a
payment in FAILED status is still re-verified with the gateway, and a
successful gateway result transitions it to COMPLETED and confirms the
order; the webhook handlers, by contrast, leave a non-PENDING (here
FAILED) payment and the whole state untouched. -/
theorem C10_failed_payment_reverified (gw : String → GatewayVerifyResponse)
    (st : St) (now : ℕ) (reference : String) (payment : Payment) (order : Order)
    (hpay : findPaymentByReference st reference = some payment)
    (hid : findPaymentById st payment.id = some payment)
    (hfailed : payment.status = .failed)
    (hgw : payment.gateway = "paystack")
    (hsucc : (gw reference).status = true)
    (hdata : (gw reference).data.status = "success")
    (href : (gw reference).data.reference = reference)
    (horder : st.orders payment.orderId = some order) :
    (verifyPayment gw st now reference).2.1 = [reference] ∧
    (findPaymentById (verifyPayment gw st now reference).1 payment.id).map
        Payment.status = some PaymentStatus.completed ∧
    ((verifyPayment gw st now reference).1.orders payment.orderId).map
        Order.paymentStatus = some PaymentStatus.completed ∧
    handleSuccessfulPayment st now (gw reference).data = st ∧
    handleFailedPayment st now (gw reference).data = st := by
  have hnotcompleted : (payment.status == PaymentStatus.completed) = false := by
    simp [hfailed]
  have hnotpending : (payment.status == PaymentStatus.pending) = false := by
    simp [hfailed]
  -- the two webhook handlers ignore the FAILED payment
  have hwh1 : handleSuccessfulPayment st now (gw reference).data = st := by
    unfold handleSuccessfulPayment
    rw [href, hpay]
    simp [hnotpending]
  have hwh2 : handleFailedPayment st now (gw reference).data = st := by
    unfold handleFailedPayment
    rw [href, hpay]
    simp [hnotpending]
  -- the verification path
  have hupd : ∀ q : Payment,
      ({ q with
        status := PaymentStatus.completed
        gatewayTransactionId := (gw reference).data.txnId
        gatewayReference := some (gw reference).data.reference
        gatewayResponse := (gw reference).data.gateway_response
        method := some (mapPayStackChannelToMethod (gw reference).data.channel)
        fees := some (koboToNaira ((gw reference).data.fees.getD 0))
        netAmount := some (payment.amount
          - koboToNaira ((gw reference).data.fees.getD 0))
        paidAt := some (gw reference).data.paid_at
        completedAt := some now
        customer := (gw reference).data.customer
        authorization := (gw reference).data.authorization
        webhookData := (gw reference).data.gateway_response
        ipAddress := (gw reference).data.ip_address
        riskAction := (gw reference).data.risk_action } : Payment).id = q.id :=
    fun q => rfl
  have hbasic := confirmPayment_basic
    (updatePaymentById st payment.id (fun p => { p with
      status := PaymentStatus.completed
      gatewayTransactionId := (gw reference).data.txnId
      gatewayReference := some (gw reference).data.reference
      gatewayResponse := (gw reference).data.gateway_response
      method := some (mapPayStackChannelToMethod (gw reference).data.channel)
      fees := some (koboToNaira ((gw reference).data.fees.getD 0))
      netAmount := some (payment.amount
        - koboToNaira ((gw reference).data.fees.getD 0))
      paidAt := some (gw reference).data.paid_at
      completedAt := some now
      customer := (gw reference).data.customer
      authorization := (gw reference).data.authorization
      webhookData := (gw reference).data.gateway_response
      ipAddress := (gw reference).data.ip_address
      riskAction := (gw reference).data.risk_action }))
    now payment.orderId
    { reference := payment.reference
      method := mapPayStackChannelToMethod (gw reference).data.channel
      gateway := payment.gateway }
    order horder
  obtain ⟨hok, horders2, hpay2⟩ := hbasic
  have hproc : processPaymentVerification st now payment (gw reference)
      = ((confirmPayment
          (updatePaymentById st payment.id (fun p => { p with
            status := PaymentStatus.completed
            gatewayTransactionId := (gw reference).data.txnId
            gatewayReference := some (gw reference).data.reference
            gatewayResponse := (gw reference).data.gateway_response
            method := some (mapPayStackChannelToMethod (gw reference).data.channel)
            fees := some (koboToNaira ((gw reference).data.fees.getD 0))
            netAmount := some (payment.amount
              - koboToNaira ((gw reference).data.fees.getD 0))
            paidAt := some (gw reference).data.paid_at
            completedAt := some now
            customer := (gw reference).data.customer
            authorization := (gw reference).data.authorization
            webhookData := (gw reference).data.gateway_response
            ipAddress := (gw reference).data.ip_address
            riskAction := (gw reference).data.risk_action }))
          now payment.orderId
          { reference := payment.reference
            method := mapPayStackChannelToMethod (gw reference).data.channel
            gateway := payment.gateway }).1, Except.ok ()) := by
    unfold processPaymentVerification
    simp only [hsucc, hdata, beq_self_eq_true, Bool.true_and, if_true, ite_true]
    rw [← hok]
  have hfind : findPaymentById (confirmPayment
      (updatePaymentById st payment.id (fun p => { p with
      status := PaymentStatus.completed
      gatewayTransactionId := (gw reference).data.txnId
      gatewayReference := some (gw reference).data.reference
      gatewayResponse := (gw reference).data.gateway_response
      method := some (mapPayStackChannelToMethod (gw reference).data.channel)
      fees := some (koboToNaira ((gw reference).data.fees.getD 0))
      netAmount := some (payment.amount
        - koboToNaira ((gw reference).data.fees.getD 0))
      paidAt := some (gw reference).data.paid_at
      completedAt := some now
      customer := (gw reference).data.customer
      authorization := (gw reference).data.authorization
      webhookData := (gw reference).data.gateway_response
      ipAddress := (gw reference).data.ip_address
      riskAction := (gw reference).data.risk_action }))
      now payment.orderId
      { reference := payment.reference
        method := mapPayStackChannelToMethod (gw reference).data.channel
        gateway := payment.gateway }).1 payment.id
      = some ({ payment with
        status := PaymentStatus.completed
        gatewayTransactionId := (gw reference).data.txnId
        gatewayReference := some (gw reference).data.reference
        gatewayResponse := (gw reference).data.gateway_response
        method := some (mapPayStackChannelToMethod (gw reference).data.channel)
        fees := some (koboToNaira ((gw reference).data.fees.getD 0))
        netAmount := some (payment.amount
          - koboToNaira ((gw reference).data.fees.getD 0))
        paidAt := some (gw reference).data.paid_at
        completedAt := some now
        customer := (gw reference).data.customer
        authorization := (gw reference).data.authorization
        webhookData := (gw reference).data.gateway_response
        ipAddress := (gw reference).data.ip_address
        riskAction := (gw reference).data.risk_action }) := by
    have hre : findPaymentById (confirmPayment
        (updatePaymentById st payment.id (fun p => { p with
      status := PaymentStatus.completed
      gatewayTransactionId := (gw reference).data.txnId
      gatewayReference := some (gw reference).data.reference
      gatewayResponse := (gw reference).data.gateway_response
      method := some (mapPayStackChannelToMethod (gw reference).data.channel)
      fees := some (koboToNaira ((gw reference).data.fees.getD 0))
      netAmount := some (payment.amount
        - koboToNaira ((gw reference).data.fees.getD 0))
      paidAt := some (gw reference).data.paid_at
      completedAt := some now
      customer := (gw reference).data.customer
      authorization := (gw reference).data.authorization
      webhookData := (gw reference).data.gateway_response
      ipAddress := (gw reference).data.ip_address
      riskAction := (gw reference).data.risk_action }))
        now payment.orderId
        { reference := payment.reference
          method := mapPayStackChannelToMethod (gw reference).data.channel
          gateway := payment.gateway }).1 payment.id
        = findPaymentById (updatePaymentById st payment.id (fun p => { p with
      status := PaymentStatus.completed
      gatewayTransactionId := (gw reference).data.txnId
      gatewayReference := some (gw reference).data.reference
      gatewayResponse := (gw reference).data.gateway_response
      method := some (mapPayStackChannelToMethod (gw reference).data.channel)
      fees := some (koboToNaira ((gw reference).data.fees.getD 0))
      netAmount := some (payment.amount
        - koboToNaira ((gw reference).data.fees.getD 0))
      paidAt := some (gw reference).data.paid_at
      completedAt := some now
      customer := (gw reference).data.customer
      authorization := (gw reference).data.authorization
      webhookData := (gw reference).data.gateway_response
      ipAddress := (gw reference).data.ip_address
      riskAction := (gw reference).data.risk_action })) payment.id := by
      unfold findPaymentById
      rw [hpay2]
    rw [hre, findPaymentById_update st payment.id _ hupd, hid]
    rfl
  have hgwif : (payment.gateway == "paystack") = true := by simp [hgw]
  unfold verifyPayment
  simp only [hpay, hnotcompleted, Bool.false_eq_true, if_false, hgwif,
    if_true, hproc, hfind]
  exact ⟨trivial, rfl, by rw [horders2]; rfl, hwh1, hwh2⟩

/-- C10 witness: the concrete FAILED payment is re-verified, becomes
COMPLETED, confirms the order, while the webhook handlers leave the same
state untouched. -/
theorem C10_witness :
    findPaymentByReference exStC10 "REF10" = some exPaymentC10 ∧
    findPaymentById exStC10 exPaymentC10.id = some exPaymentC10 ∧
    exPaymentC10.status = PaymentStatus.failed ∧
    exPaymentC10.gateway = "paystack" ∧
    (exGw "REF10").status = true ∧
    (exGw "REF10").data.status = "success" ∧
    (exGw "REF10").data.reference = "REF10" ∧
    exStC10.orders exPaymentC10.orderId = some baseOrder ∧
    ((verifyPayment exGw exStC10 15 "REF10").2.1 = ["REF10"] ∧
    (findPaymentById (verifyPayment exGw exStC10 15 "REF10").1
        exPaymentC10.id).map Payment.status = some PaymentStatus.completed ∧
    ((verifyPayment exGw exStC10 15 "REF10").1.orders
        exPaymentC10.orderId).map Order.paymentStatus
      = some PaymentStatus.completed ∧
    handleSuccessfulPayment exStC10 15 (exGw "REF10").data = exStC10 ∧
    handleFailedPayment exStC10 15 (exGw "REF10").data = exStC10) :=
  ⟨rfl, rfl, rfl, rfl, rfl, rfl, rfl, rfl,
    C10_failed_payment_reverified exGw exStC10 15 "REF10" exPaymentC10
      baseOrder rfl rfl rfl rfl rfl rfl rfl rfl⟩

end Tradeoff
